import Mathlib

/-!
Verification development for the keystone/CCIP deployment orchestration code.

The first part embeds `deployment/keystone/capability_management.go`:
capability descriptors, the registry handle, `dedupCapabilities` and
`AddCapabilities` (direct vs. MCMS-batched execution).

The second part embeds the CCIP changeset deployment code:
`deployPrerequisiteContracts`, `deployPrerequisiteChainContracts` (the
errgroup fan-out), `deployChainContracts`, and `configureChain`.

Machine words are modelled as `Nat`; `[32]byte` hashes as `String`;
addresses and transaction hashes as `Nat`; fallible external calls as
`Except String`.
-/

/-- Shallow embedding of `kcr.CapabilitiesRegistryCapability`: LabelledName,
Version, plus the remaining fields (CapabilityType, ResponseType,
ConfigurationContract) which the dedup logic must ignore. -/
structure Capability where
  labelledName : String
  version : String
  capabilityType : Nat
  responseType : Nat
  configurationContract : Nat
deriving DecidableEq

/-- `CapabilityID` from capability_management.go: `fmt.Sprintf("%s@%s", name, version)`. -/
def CapabilityID (c : Capability) : String :=
  c.labelledName ++ "@" ++ c.version

/-- Model of the registry-derived `[32]byte` capability hash. -/
abbrev HashId := String

/-- Transaction options (`bind.TransactOpts`): the signing key identity and
the NoSend flag. -/
structure TxOpts where
  fromKey : Nat
  noSend : Bool
deriving DecidableEq

/-- Modelled from the spec: `deployment.SimTransactOpts` (its definition is
not under src/). Per the spec's batched mode, it yields transaction options
that only simulate the call and never send it on-chain (NoSend), so that no
on-chain effect occurs until the governance proposal is executed. -/
def SimTransactOpts : TxOpts :=
  { fromKey := 0, noSend := true }

/-- The bound `CapabilitiesRegistry` contract handle, as used by
capability_management.go: its address, the result of the read-only
`GetCapabilities` call (projected to the `HashedId` fields), the read-only
`GetHashedCapabilityId` derivation, and the effect of submitting an
`AddCapabilities` transaction (returning a tx hash or an error). -/
structure Registry where
  address : Nat
  getCapabilitiesResult : Except String (List HashId)
  getHashedCapabilityId : String → String → Except String HashId
  submitAddCapabilities : TxOpts → List Capability → Except String Nat

/-- A registry whose read calls always succeed: `GetCapabilities` returns
`existing` and `GetHashedCapabilityId` is the total derivation `hf`. -/
def Registry.ofTotal (addr : Nat) (existing : List HashId)
    (hf : String → String → HashId)
    (submit : TxOpts → List Capability → Except String Nat) : Registry :=
  { address := addr
    getCapabilitiesResult := .ok existing
    getHashedCapabilityId := fun n v => .ok (hf n v)
    submitAddCapabilities := submit }

/-- The loop body of `dedupCapabilities`: walk the candidates, keeping the
`seen` set of CapabilityID strings (the Go `seen` map) and the accumulated
output. Mirrors the Go loop: hash first, then skip when the ID was seen,
then record the ID, then append only when the hash is not registered. -/
def dedupLoop (r : Registry) (existing : List HashId) :
    List Capability → List String → List Capability →
    Except String (List Capability)
  | [], _, out => .ok out
  | c :: rest, seen, out =>
    match r.getHashedCapabilityId c.labelledName c.version with
    | .error e => .error ("failed to call GetHashedCapabilityId: " ++ e)
    | .ok h =>
      if CapabilityID c ∈ seen then
        dedupLoop r existing rest seen out
      else
        if h ∈ existing then
          dedupLoop r existing rest (CapabilityID c :: seen) out
        else
          dedupLoop r existing rest (CapabilityID c :: seen) (out ++ [c])

/-- `dedupCapabilities` from capability_management.go: read the registered
capability hashes, then drop candidates whose CapabilityID was already seen
in this request and candidates whose hash is already registered. -/
def dedupCapabilities (r : Registry) (capabilities : List Capability) :
    Except String (List Capability) :=
  match r.getCapabilitiesResult with
  | .error e => .error ("failed to call GetCapabilities: " ++ e)
  | .ok existing => dedupLoop r existing capabilities [] []

/-- `d` earlier in the request makes `c` a duplicate. -/
def isDupOfEarlier (dup : Capability → Capability → Bool)
    (earlier : List Capability) (c : Capability) : Bool :=
  earlier.any fun d => dup d c

/-- Declarative survivor filter used to state the deduplication claim:
keep a candidate iff its registry-derived hash is not registered and it does
not duplicate (per `dup`) any earlier candidate of the same request; the
survivors keep their original relative order. -/
def survivorsBy (dup : Capability → Capability → Bool)
    (hf : String → String → HashId) (existing : List HashId) :
    List Capability → List Capability → List Capability
  | [], _ => []
  | c :: rest, earlier =>
    if hf c.labelledName c.version ∈ existing ∨
        isDupOfEarlier dup earlier c = true then
      survivorsBy dup hf existing rest (earlier ++ [c])
    else
      c :: survivorsBy dup hf existing rest (earlier ++ [c])

/-- Duplicate test by equality of the (name, version) pair — the identity
notion the specification assigns to capability descriptors. -/
def sameNameVersion (a b : Capability) : Bool :=
  a.labelledName == b.labelledName && a.version == b.version

/-- Duplicate test by equality of the derived ID string `name@version`
(the comparison the Go code actually performs). -/
def sameCapabilityID (a b : Capability) : Bool :=
  CapabilityID a == CapabilityID b

/-- The deduplication claim read literally: duplicates within the request
are detected by equality of the (name, version) pair. -/
def dedupSpecPair (hf : String → String → HashId) (existing : List HashId)
    (caps : List Capability) : List Capability :=
  survivorsBy sameNameVersion hf existing caps []

/-- The amended deduplication contract: duplicates within the request are
detected by equality of the joined ID string `name@version`. -/
def dedupSpecID (hf : String → String → HashId) (existing : List HashId)
    (caps : List Capability) : List Capability :=
  survivorsBy sameCapabilityID hf existing caps []

/-- The ABI payload of a transaction produced by the bound contract calls
modelled here. -/
inductive CallData where
  | addCapabilities (args : List Capability)
  | updateNodes (nodes : List Nat)
deriving DecidableEq

/-- `mcms.Operation`: target address (the Go field `To`), encoded call,
value. -/
structure Operation where
  target : Nat
  data : CallData
  value : Int
deriving DecidableEq

/-- `timelock.BatchChainOperation`: the chain selector and the ordered batch
of operations for that chain. -/
structure BatchChainOperation where
  chainIdentifier : Nat
  batch : List Operation
deriving DecidableEq

/-- `deployment.Chain`: selector, deployer key identity, and the
`Confirm` primitive (tx hash to receipt or error). -/
structure Chain where
  selector : Nat
  deployerKey : Nat
  confirm : Nat → Except String Nat

/-- The `ContractSet` slice used by `AddCapabilities`. -/
structure ContractSet where
  capabilitiesRegistry : Registry

/-- Observable side effects of one `AddCapabilities` invocation: whether the
registry was read (GetCapabilities/GetHashedCapabilityId), the transaction
options a submission was attempted with (if any), whether a transaction was
actually sent on-chain, and whether `chain.Confirm` was called. -/
structure Effects where
  readRegistry : Bool
  submitOpts : Option TxOpts
  submitted : Bool
  confirmCalled : Bool
deriving DecidableEq

/-- No side effects at all. -/
def Effects.empty : Effects :=
  { readRegistry := false, submitOpts := none, submitted := false
    confirmCalled := false }

/-- Result of `AddCapabilities`: the optional batch operation, the optional
error, and the observable effects. -/
structure AddCapsOut where
  batch : Option BatchChainOperation
  error : Option String
  effects : Effects
deriving DecidableEq

/-- `AddCapabilities` from capability_management.go. Empty input returns
immediately. Otherwise: dedup against the registry; pick transaction options
(deployer key in direct mode, `SimTransactOpts` under MCMS); submit the
`AddCapabilities` call; in direct mode block on `chain.Confirm`; in MCMS
mode build the single-operation batch for the calling chain instead. -/
def AddCapabilities (cs : ContractSet) (chain : Chain)
    (capabilities : List Capability) (useMCMS : Bool) : AddCapsOut :=
  match capabilities with
  | [] => { batch := none, error := none, effects := Effects.empty }
  | _ :: _ =>
    let r := cs.capabilitiesRegistry
    match dedupCapabilities r capabilities with
    | .error e =>
      { batch := none, error := some ("failed to dedup capabilities: " ++ e)
        effects := { Effects.empty with readRegistry := true } }
    | .ok deduped =>
      let txOpts : TxOpts :=
        if useMCMS then SimTransactOpts
        else { fromKey := chain.deployerKey, noSend := false }
      match r.submitAddCapabilities txOpts deduped with
      | .error e =>
        { batch := none, error := some ("failed to add capabilities: " ++ e)
          effects := { readRegistry := true, submitOpts := some txOpts
                       submitted := false, confirmCalled := false } }
      | .ok txHash =>
        let sent := !txOpts.noSend
        if useMCMS then
          { batch := some
              { chainIdentifier := chain.selector
                batch := [{ target := r.address
                            data := CallData.addCapabilities deduped
                            value := 0 }] }
            error := none
            effects := { readRegistry := true, submitOpts := some txOpts
                         submitted := sent, confirmCalled := false } }
        else
          match chain.confirm txHash with
          | .error e =>
            { batch := none
              error := some
                ("failed to confirm AddCapabilities confirm transaction: " ++ e)
              effects := { readRegistry := true, submitOpts := some txOpts
                           submitted := sent, confirmCalled := true } }
          | .ok _ =>
            { batch := none, error := none
              effects := { readRegistry := true, submitOpts := some txOpts
                           submitted := sent, confirmCalled := true } }

/-! ## CCIP changeset deployment model -/

/-- The `deployment.ContractType` tags deployed by the changeset code. -/
inductive ContractKind where
  | mockRMN
  | armProxy
  | tokenAdminRegistry
  | registryModule
  | weth9
  | linkToken
  | router
  | multicall3
  | usdc
  | ccipReceiver
  | rmnRemote
  | testRouter
  | nonceManager
  | feeQuoter
  | onRamp
  | offRamp
deriving DecidableEq

/-- Printable tag name, used in deployment failure messages. -/
def kindName : ContractKind → String
  | .mockRMN => "MockRMN"
  | .armProxy => "ARMProxy"
  | .tokenAdminRegistry => "TokenAdminRegistry"
  | .registryModule => "RegistryModuleOwnerCustom"
  | .weth9 => "WETH9"
  | .linkToken => "LinkToken"
  | .router => "Router"
  | .multicall3 => "Multicall3"
  | .usdc => "USDC"
  | .ccipReceiver => "CCIPReceiver"
  | .rmnRemote => "RMNRemote"
  | .testRouter => "TestRouter"
  | .nonceManager => "NonceManager"
  | .feeQuoter => "FeeQuoter"
  | .onRamp => "OnRamp"
  | .offRamp => "OffRamp"

/-- One Address-Book entry: (environment selector, type tag, semantic
version, deployed address). -/
structure ContractRecord where
  selector : Nat
  kind : ContractKind
  version : String
  address : Nat
deriving DecidableEq

/-- The typed per-chain view reconstructed by `LoadOnchainState`, restricted
to the fields the embedded functions read or write. `registryModuleAdded`
models the on-chain `TokenAdminRegistry.IsRegistryModule` flag for the
currently recorded registry module. `rmnRemoteDigest`, `feeQuoterCallers`
and `nonceManagerCallers` model the wiring configuration written by
`deployChainContracts`. -/
structure ChainState where
  mockRMN : Option Nat := none
  rmnProxyExisting : Option Nat := none
  tokenAdminRegistry : Option Nat := none
  registryModule : Option Nat := none
  registryModuleAdded : Bool := false
  weth9 : Option Nat := none
  linkToken : Option Nat := none
  router : Option Nat := none
  multicall3 : Option Nat := none
  usdc : Option Nat := none
  timelock : Option Nat := none
  receiver : Option Nat := none
  rmnRemote : Option Nat := none
  rmnProxyNew : Option Nat := none
  testRouter : Option Nat := none
  nonceManager : Option Nat := none
  feeQuoter : Option Nat := none
  onRamp : Option Nat := none
  offRamp : Option Nat := none
  rmnRemoteDigest : Option Nat := none
  feeQuoterCallers : List Nat := []
  nonceManagerCallers : List Nat := []
deriving DecidableEq

/-- Field setters for `ChainState`, named so that proof terms stay small. -/
def setMockRMN (c : ChainState) (a : Nat) : ChainState :=
  { c with mockRMN := some a }

/-- Setter for the existing RMNProxy record. -/
def setRMNProxyExisting (c : ChainState) (a : Nat) : ChainState :=
  { c with rmnProxyExisting := some a }

/-- Setter for the TokenAdminRegistry record. -/
def setTokenAdminRegistry (c : ChainState) (a : Nat) : ChainState :=
  { c with tokenAdminRegistry := some a }

/-- Setter for the RegistryModule record; a freshly deployed module is not
yet registered on the token admin registry. -/
def setRegistryModule (c : ChainState) (a : Nat) : ChainState :=
  { c with registryModule := some a, registryModuleAdded := false }

/-- Setter for the on-chain IsRegistryModule flag. -/
def setRegistryModuleAdded (c : ChainState) : ChainState :=
  { c with registryModuleAdded := true }

/-- Setter for the WETH9 record. -/
def setWeth9 (c : ChainState) (a : Nat) : ChainState :=
  { c with weth9 := some a }

/-- Setter for the LinkToken record. -/
def setLinkToken (c : ChainState) (a : Nat) : ChainState :=
  { c with linkToken := some a }

/-- Setter for the Router record. -/
def setRouter (c : ChainState) (a : Nat) : ChainState :=
  { c with router := some a }

/-- Setter for the Multicall3 record. -/
def setMulticall3 (c : ChainState) (a : Nat) : ChainState :=
  { c with multicall3 := some a }

/-- Setter for the USDC record group. -/
def setUSDC (c : ChainState) (a : Nat) : ChainState :=
  { c with usdc := some a }

/-- Setter for the CCIPReceiver record. -/
def setReceiver (c : ChainState) (a : Nat) : ChainState :=
  { c with receiver := some a }

/-- Setter for the RMNRemote record. -/
def setRMNRemote (c : ChainState) (a : Nat) : ChainState :=
  { c with rmnRemote := some a }

/-- Setter for the new RMNProxy record. -/
def setRMNProxyNew (c : ChainState) (a : Nat) : ChainState :=
  { c with rmnProxyNew := some a }

/-- Setter for the TestRouter record. -/
def setTestRouter (c : ChainState) (a : Nat) : ChainState :=
  { c with testRouter := some a }

/-- Setter for the NonceManager record. -/
def setNonceManager (c : ChainState) (a : Nat) : ChainState :=
  { c with nonceManager := some a }

/-- Setter for the FeeQuoter record. -/
def setFeeQuoter (c : ChainState) (a : Nat) : ChainState :=
  { c with feeQuoter := some a }

/-- Setter for the OnRamp record. -/
def setOnRamp (c : ChainState) (a : Nat) : ChainState :=
  { c with onRamp := some a }

/-- Setter for the OffRamp record. -/
def setOffRamp (c : ChainState) (a : Nat) : ChainState :=
  { c with offRamp := some a }

/-- Setter for the RMNRemote config digest. -/
def setRMNRemoteDigest (c : ChainState) (d : Nat) : ChainState :=
  { c with rmnRemoteDigest := some d }

/-- Setter for the fee-quoter authorized-caller set. -/
def setFeeQuoterCallers (c : ChainState) (l : List Nat) : ChainState :=
  { c with feeQuoterCallers := l }

/-- Setter for the nonce-manager authorized-caller set. -/
def setNonceManagerCallers (c : ChainState) (l : List Nat) : ChainState :=
  { c with nonceManagerCallers := l }

/-- `PrerequisiteOpt` functional options. -/
inductive PrerequisiteOpt where
  | withUSDCChains (chains : List Nat)
  | withMulticall3 (enabled : Bool)
deriving DecidableEq

/-- `DeployPrerequisiteContractsOpts`. -/
structure PrereqOpts where
  usdcEnabledChains : List Nat := []
  multicall3Enabled : Bool := false
deriving DecidableEq

/-- Application of one functional option. -/
def applyOpt (o : PrereqOpts) : PrerequisiteOpt → PrereqOpts
  | .withUSDCChains chains => { o with usdcEnabledChains := chains }
  | .withMulticall3 enabled => { o with multicall3Enabled := enabled }

/-- Fold of the functional options over the zero-value options struct. -/
def resolveOpts (opts : List PrerequisiteOpt) : PrereqOpts :=
  opts.foldl applyOpt {}

/-- Failure injection for the external deploy-and-confirm primitive:
`fail sel kind = true` makes deploying contract `kind` on chain `sel` fail.
The all-`false` plan models a run with no intervening failures. -/
abbrev FailPlan := Nat → ContractKind → Bool

/-- The all-successful failure plan. -/
def noFail : FailPlan := fun _ _ => false

/-- Wiring (configuration) transactions issued by `deployChainContracts`
after the deploy steps. -/
inductive WiringAction where
  | setRMNRemoteConfig (digest : Nat)
  | feeQuoterAuthUpdate (addedCallers : List Nat)
  | nonceManagerAuthUpdate (addedCallers : List Nat)
deriving DecidableEq

/-- Running state of one per-chain deployment: the chain's typed state, the
next fresh address, the Address-Book delta appended so far, and the wiring
actions issued so far. -/
structure RunS where
  st : ChainState
  next : Nat
  delta : List ContractRecord
  wiring : List WiringAction
deriving DecidableEq

/-- A step result: the updated running state and the first error, if any. -/
abbrev StepResult := RunS × Option String

/-- Sequencing of steps: Go's early `return err` — a failed step aborts the
remaining steps, keeping the state accumulated so far. -/
def seqS (r : StepResult) (f : RunS → StepResult) : StepResult :=
  match r with
  | (s, none) => f s
  | (s, some e) => (s, some e)

/-- Generic skip-if-exists deployment step: if the `get` field is already
recorded, log and skip; otherwise deploy (which may fail per the plan),
record the fresh address and append the ContractRecord to the delta. -/
def stepDeployIfAbsent (fail : FailPlan) (sel : Nat) (k : ContractKind)
    (ver : String) (get : ChainState → Option Nat)
    (set : ChainState → Nat → ChainState) (s : RunS) : StepResult :=
  match get s.st with
  | some _ => (s, none)
  | none =>
    if fail sel k then
      (s, some ("failed to deploy " ++ kindName k ++ " for chain "
        ++ toString sel))
    else
      ({ st := set s.st s.next, next := s.next + 1
         delta := s.delta ++ [{ selector := sel, kind := k, version := ver
                                address := s.next }]
         wiring := s.wiring }, none)

/-- The RMNProxy prerequisite step: when no existing RMNProxy is recorded,
deploy MockRMN (1.0.0) and then ARMProxy (1.0.0) pointing at it. Guarded
only on the proxy, exactly as in the Go code. -/
def stepRMNProxy (fail : FailPlan) (sel : Nat) (s : RunS) : StepResult :=
  match s.st.rmnProxyExisting with
  | some _ => (s, none)
  | none =>
    if fail sel .mockRMN then
      (s, some ("failed to deploy " ++ kindName .mockRMN ++ " for chain "
        ++ toString sel))
    else
      let s1 : RunS :=
        { st := setMockRMN s.st s.next, next := s.next + 1
          delta := s.delta ++ [{ selector := sel, kind := .mockRMN
                                 version := "1.0.0", address := s.next }]
          wiring := s.wiring }
      if fail sel .armProxy then
        (s1, some ("failed to deploy " ++ kindName .armProxy ++ " for chain "
          ++ toString sel))
      else
        ({ st := setRMNProxyExisting s1.st s1.next
           next := s1.next + 1
           delta := s1.delta ++ [{ selector := sel, kind := .armProxy
                                   version := "1.0.0", address := s1.next }]
           wiring := s1.wiring }, none)

/-- The `AddRegistryModule` transaction, issued only when
`IsRegistryModule` reports the module as not yet registered. -/
def stepAddRegistryModule (s : RunS) : StepResult :=
  if s.st.registryModuleAdded then (s, none)
  else ({ s with st := setRegistryModuleAdded s.st }, none)

/-- The optional Multicall3 step: deploy only when the option is enabled
and no Multicall3 is recorded; otherwise log and skip. -/
def stepMulticall3 (fail : FailPlan) (enabled : Bool) (sel : Nat)
    (s : RunS) : StepResult :=
  if enabled && s.st.multicall3.isNone then
    stepDeployIfAbsent fail sel .multicall3 "1.0.0"
      (fun st => st.multicall3) setMulticall3 s
  else (s, none)

/-- Modelled from the spec: `DeployUSDC` (its definition is not under
src/). Per spec §4.2 each deployment step skips when its output already
exists; the USDC record stands for the token/pool/messenger/transmitter
group deployed for a USDC-enabled chain. -/
def stepUSDC (fail : FailPlan) (isUSDC : Bool) (sel : Nat)
    (s : RunS) : StepResult :=
  if isUSDC then
    stepDeployIfAbsent fail sel .usdc "1.0.0"
      (fun st => st.usdc) setUSDC s
  else (s, none)

/-- `deployPrerequisiteContracts` for one chain: resolve the functional
options, take the loaded chain state (zero-valued when the chain is absent
from the state), and run the fixed step chain — RMNProxy (MockRMN +
ARMProxy), TokenAdminRegistry, RegistryModule, AddRegistryModule, WETH9,
LinkToken, Router, optional Multicall3, optional USDC. -/
def deployPrerequisiteContracts (fail : FailPlan)
    (opts : List PrerequisiteOpt) (sel : Nat)
    (chainSt : Option ChainState) (next : Nat) : StepResult :=
  let o := resolveOpts opts
  let isUSDC := sel ∈ o.usdcEnabledChains
  let s0 : RunS := { st := chainSt.getD {}, next := next, delta := []
                     wiring := [] }
  seqS (stepRMNProxy fail sel s0) fun s1 =>
  seqS (stepDeployIfAbsent fail sel .tokenAdminRegistry "1.5.0"
          (fun st => st.tokenAdminRegistry) setTokenAdminRegistry s1) fun s2 =>
  seqS (stepDeployIfAbsent fail sel .registryModule "1.5.0"
          (fun st => st.registryModule) setRegistryModule s2) fun s3 =>
  seqS (stepAddRegistryModule s3) fun s4 =>
  seqS (stepDeployIfAbsent fail sel .weth9 "1.0.0"
          (fun st => st.weth9) setWeth9 s4) fun s5 =>
  seqS (stepDeployIfAbsent fail sel .linkToken "1.0.0"
          (fun st => st.linkToken) setLinkToken s5) fun s6 =>
  seqS (stepDeployIfAbsent fail sel .router "1.2.0"
          (fun st => st.router) setRouter s6) fun s7 =>
  seqS (stepMulticall3 fail o.multicall3Enabled sel s7) fun s8 =>
  stepUSDC fail isUSDC sel s8

/-- The parallel fan-out over the prerequisite deployer: one task per
selector over the state snapshot loaded once at entry; every task runs to
completion regardless of sibling failures (errgroup without cancellation);
the aggregate error is the first task error. Per-task address spaces are
independent (each chain allocates its own addresses from `next`). -/
def deployPrerequisiteChainContracts (fail : FailPlan)
    (opts : List PrerequisiteOpt) (chains : List (Nat × Option ChainState))
    (next : Nat) : List (Nat × RunS) × Option String :=
  match chains with
  | [] => ([], none)
  | (sel, st) :: rest =>
    let r := deployPrerequisiteContracts fail opts sel st next
    let rec' := deployPrerequisiteChainContracts fail opts rest next
    ((sel, r.1) :: rec'.1,
      match r.2 with
      | some e => some e
      | none => rec'.2)

/-- The joined Address-Book delta persisted by a fan-out run. -/
def fanOutDelta (results : List (Nat × RunS)) : List ContractRecord :=
  results.flatMap fun p => p.2.delta

/-- Idempotent authorized-caller insertion. Modelled from the spec:
the `AuthorizedCallers` on-chain set semantics (the contract is not under
src/) — adding an already-authorized caller leaves the set unchanged. -/
def addCaller (callers : List Nat) (a : Nat) : List Nat :=
  if a ∈ callers then callers else callers ++ [a]

/-- Apply a list of added callers in order. -/
def addCallers (callers : List Nat) (added : List Nat) : List Nat :=
  added.foldl addCaller callers

/-- The always-run `RMNRemote.SetConfig` wiring transaction: records the
active RMNHome digest on the chain and logs the wiring action. -/
def stepSetRMNRemoteConfig (digest : Nat) (s : RunS) : StepResult :=
  ({ s with
      st := setRMNRemoteDigest s.st digest,
      wiring := s.wiring ++ [.setRMNRemoteConfig digest] }, none)

/-- The always-run fee-quoter `ApplyAuthorizedCallerUpdates` wiring
transaction, adding the OffRamp and the deployer key. -/
def stepFeeQuoterAuth (deployerKey : Nat) (s : RunS) : StepResult :=
  let oa := s.st.offRamp.getD 0
  ({ s with
      st := setFeeQuoterCallers s.st
        (addCallers s.st.feeQuoterCallers [oa, deployerKey]),
      wiring := s.wiring ++ [.feeQuoterAuthUpdate [oa, deployerKey]] }, none)

/-- The always-run nonce-manager `ApplyAuthorizedCallerUpdates` wiring
transaction, adding the OffRamp and the OnRamp. -/
def stepNonceManagerAuth (s : RunS) : StepResult :=
  let oa := s.st.offRamp.getD 0
  let ona := s.st.onRamp.getD 0
  ({ s with
      st := setNonceManagerCallers s.st
        (addCallers s.st.nonceManagerCallers [oa, ona]),
      wiring := s.wiring ++ [.nonceManagerAuthUpdate [oa, ona]] }, none)

/-- Step 11 of `deployChainContracts`: the nonce-manager authorized-caller
update. -/
def ccStep11 (s : RunS) : StepResult :=
  stepNonceManagerAuth s

/-- Step 10 onwards: the fee-quoter authorized-caller update. -/
def ccStep10 (deployerKey : Nat) (s : RunS) : StepResult :=
  seqS (stepFeeQuoterAuth deployerKey s) ccStep11

/-- Step 9 onwards: the OffRamp deployment. -/
def ccStep9 (fail : FailPlan) (sel deployerKey : Nat) (s : RunS) :
    StepResult :=
  seqS (stepDeployIfAbsent fail sel .offRamp "1.6.0-dev"
    (fun c => c.offRamp) setOffRamp s) (ccStep10 deployerKey)

/-- Step 8 onwards: the OnRamp deployment. -/
def ccStep8 (fail : FailPlan) (sel deployerKey : Nat) (s : RunS) :
    StepResult :=
  seqS (stepDeployIfAbsent fail sel .onRamp "1.6.0-dev"
    (fun c => c.onRamp) setOnRamp s) (ccStep9 fail sel deployerKey)

/-- Step 7 onwards: the FeeQuoter deployment. -/
def ccStep7 (fail : FailPlan) (sel deployerKey : Nat) (s : RunS) :
    StepResult :=
  seqS (stepDeployIfAbsent fail sel .feeQuoter "1.6.0-dev"
    (fun c => c.feeQuoter) setFeeQuoter s) (ccStep8 fail sel deployerKey)

/-- Step 6 onwards: the NonceManager deployment. -/
def ccStep6 (fail : FailPlan) (sel deployerKey : Nat) (s : RunS) :
    StepResult :=
  seqS (stepDeployIfAbsent fail sel .nonceManager "1.6.0-dev"
    (fun c => c.nonceManager) setNonceManager s) (ccStep7 fail sel deployerKey)

/-- Step 5 onwards: the TestRouter deployment. -/
def ccStep5 (fail : FailPlan) (sel deployerKey : Nat) (s : RunS) :
    StepResult :=
  seqS (stepDeployIfAbsent fail sel .testRouter "1.2.0"
    (fun c => c.testRouter) setTestRouter s) (ccStep6 fail sel deployerKey)

/-- Step 4 onwards: the new RMNProxy deployment. -/
def ccStep4 (fail : FailPlan) (sel deployerKey : Nat) (s : RunS) :
    StepResult :=
  seqS (stepDeployIfAbsent fail sel .armProxy "1.6.0-dev"
    (fun c => c.rmnProxyNew) setRMNProxyNew s) (ccStep5 fail sel deployerKey)

/-- Step 3 onwards: the always-run RMNRemote SetConfig wiring. -/
def ccStep3 (fail : FailPlan) (sel digest deployerKey : Nat) (s : RunS) :
    StepResult :=
  seqS (stepSetRMNRemoteConfig digest s) (ccStep4 fail sel deployerKey)

/-- Step 2 onwards: the RMNRemote deployment. -/
def ccStep2 (fail : FailPlan) (sel digest deployerKey : Nat) (s : RunS) :
    StepResult :=
  seqS (stepDeployIfAbsent fail sel .rmnRemote "1.6.0-dev"
    (fun c => c.rmnRemote) setRMNRemote s) (ccStep3 fail sel digest deployerKey)

/-- Step 1 onwards: the CCIPReceiver deployment, head of the
`deployChainContracts` step chain. -/
def ccStep1 (fail : FailPlan) (sel digest deployerKey : Nat) (s : RunS) :
    StepResult :=
  seqS (stepDeployIfAbsent fail sel .ccipReceiver "1.0.0"
    (fun c => c.receiver) setReceiver s) (ccStep2 fail sel digest deployerKey)

/-- `deployChainContracts` for one chain: gate on the prerequisite records
(chain state, WETH9, Timelock, LinkToken, TokenAdminRegistry,
RegistryModule, Router), then run the step chain — CCIPReceiver, RMNRemote,
`SetConfig` to the active RMNHome digest (always), new ARMProxy
(1.6.0-dev), TestRouter, NonceManager, FeeQuoter, OnRamp, OffRamp — and
finally the two authorized-caller wiring updates (always). -/
def deployChainContracts (fail : FailPlan) (sel : Nat)
    (chainSt : Option ChainState) (rmnHomeActiveDigest : Nat)
    (deployerKey : Nat) (next : Nat) : StepResult :=
  match chainSt with
  | none =>
    ({ st := {}, next := next, delta := [], wiring := [] },
      some ("chain " ++ toString sel
        ++ " not found in existing state, deploy the prerequisites first"))
  | some st =>
    let s0 : RunS := { st := st, next := next, delta := [], wiring := [] }
    if st.weth9.isNone then
      (s0, some ("weth9 not found for chain " ++ toString sel
        ++ ", deploy the prerequisites first"))
    else if st.timelock.isNone then
      (s0, some ("timelock not found for chain " ++ toString sel
        ++ ", deploy the mcms contracts first"))
    else if st.linkToken.isNone then
      (s0, some ("link token not found for chain " ++ toString sel
        ++ ", deploy the prerequisites first"))
    else if st.tokenAdminRegistry.isNone then
      (s0, some ("token admin registry not found for chain " ++ toString sel
        ++ ", deploy the prerequisites first"))
    else if st.registryModule.isNone then
      (s0, some ("registry module not found for chain " ++ toString sel
        ++ ", deploy the prerequisites first"))
    else if st.router.isNone then
      (s0, some ("router not found for chain " ++ toString sel
        ++ ", deploy the prerequisites first"))
    else
      ccStep1 fail sel rmnHomeActiveDigest deployerKey s0

/-! ## Configuration step (`configureChain`) -/

/-- The home-chain records `configureChain` requires. -/
structure HomeChainView where
  capabilityRegistry : Option Nat
  ccipHome : Option Nat
  rmnHome : Option Nat
deriving DecidableEq

/-- The per-target-chain records `configureChain` requires. -/
structure TargetChainView where
  offRamp : Option Nat
deriving DecidableEq

/-- A mutating call routed through the Change Router by the Configuration
Step: `AddChainConfig` on the home chain for a target selector, or `AddDON`
forming the target's operational group. -/
inductive RouterCall where
  | addChainConfig (sel : Nat)
  | addDON (sel : Nat)
deriving DecidableEq

/-- Substring test: `mentions s pat` is true iff `pat` occurs in `s` as a
contiguous substring (infix of the character list). -/
def mentions (s pat : String) : Bool :=
  decide (pat.data <:+: s.data)

/-- The per-target loop of `configureChain`: for each selector, check the
chain state and its OffRamp, then issue `AddChainConfig` and `AddDON`;
the first missing record aborts with its error, keeping the calls already
issued. -/
def configureChainLoop :
    List (Nat × Option TargetChainView) → List RouterCall →
    Option String × List RouterCall
  | [], calls => (none, calls)
  | (sel, view) :: rest, calls =>
    match view with
    | none => (some ("chain state not found for chain " ++ toString sel), calls)
    | some v =>
      match v.offRamp with
      | none => (some ("off ramp not found for chain " ++ toString sel), calls)
      | some _ =>
        configureChainLoop rest
          (calls ++ [.addChainConfig sel, .addDON sel])

/-- `configureChain`: check the OCR secrets, the node set, then the home
records (capability registry, CCIPHome, RMNHome), then configure each
target chain in order. Returns the first error and the mutating Router
calls actually issued. Mirrors the Go control flow, including the quirk
that an empty node set with no error returns the nil error untouched. -/
def configureChain (ocrSecretsEmpty : Bool)
    (nodeInfo : Except String (List Nat)) (home : HomeChainView)
    (targets : List (Nat × Option TargetChainView)) :
    Option String × List RouterCall :=
  if ocrSecretsEmpty then (some "OCR secrets are empty", [])
  else
    match nodeInfo with
    | .error e => (some e, [])
    | .ok nodes =>
      if nodes.length = 0 then (none, [])
      else
        match home.capabilityRegistry with
        | none => (some "capability registry not found", [])
        | some _ =>
          match home.ccipHome with
          | none => (some "ccip home not found", [])
          | some _ =>
            match home.rmnHome with
            | none => (some "rmn home not found", [])
            | some _ => configureChainLoop targets []

/-! ## Batched proposals (`AppendNodeCapabilities`) -/

/-- A timelock proposal: its list of transactions, each one a
`BatchChainOperation`. -/
structure TimelockProposal where
  transactions : List BatchChainOperation
deriving DecidableEq

/-- `deployment.ChangesetOutput`, restricted to what the claims observe. -/
structure ChangesetOutput where
  proposals : List TimelockProposal
  addressBook : Option Nat
deriving DecidableEq

/-- Modelled from the spec: the `AppendNodeCapabilities` changeset (its
definition is not under src/; only its test is). Per the spec's batched
mode, the two mutating operations of one request for the registry chain —
adding the requested capabilities and updating the node registrations — are
accumulated into the same ChangeBatch, and the request yields a single
governance proposal. In direct mode both operations execute immediately
and no proposal is produced. -/
def AppendNodeCapabilities (cs : ContractSet) (chain : Chain)
    (caps : List Capability) (nodes : List Nat) (useMCMS : Bool) :
    Except String ChangesetOutput :=
  let add := AddCapabilities cs chain caps useMCMS
  match add.error with
  | some e => .error e
  | none =>
    let updateOp : Operation :=
      { target := cs.capabilitiesRegistry.address
        data := CallData.updateNodes nodes, value := 0 }
    if useMCMS then
      let addOps :=
        match add.batch with
        | some b => b.batch
        | none => []
      .ok { proposals :=
              [{ transactions :=
                   [{ chainIdentifier := chain.selector
                      batch := addOps ++ [updateOp] }] }]
            addressBook := none }
    else
      .ok { proposals := [], addressBook := none }

/-! ## Concrete instances for scenarios and witnesses -/

/-- A concrete registry hash derivation that keeps distinct (name, version)
pairs distinct: the two strings joined by `"|"`. -/
def pipeHash (n v : String) : HashId :=
  n ++ "|" ++ v

/-- The scenario capability A@1.0. -/
def capA10 : Capability :=
  { labelledName := "A", version := "1.0", capabilityType := 0
    responseType := 0, configurationContract := 0 }

/-- The scenario capability B@1.0. -/
def capB10 : Capability :=
  { labelledName := "B", version := "1.0", capabilityType := 0
    responseType := 0, configurationContract := 0 }

/-- A submit primitive that always succeeds. -/
def okSubmit : TxOpts → List Capability → Except String Nat :=
  fun _ _ => .ok 0

/-- The scenario registry: A@1.0 already registered. -/
def scenarioRegistry : Registry :=
  Registry.ofTotal 1 [pipeHash "A" "1.0"] pipeHash okSubmit

/-- A registry with nothing registered. -/
def emptyRegistry : Registry :=
  Registry.ofTotal 1 [] pipeHash okSubmit

/-- First colliding capability: name "A@1", version "0". -/
def capColl1 : Capability :=
  { labelledName := "A@1", version := "0", capabilityType := 0
    responseType := 0, configurationContract := 0 }

/-- Second colliding capability: name "A", version "1@0" — a different
(name, version) pair with the same joined ID string "A@1@0". -/
def capColl2 : Capability :=
  { labelledName := "A", version := "1@0", capabilityType := 0
    responseType := 0, configurationContract := 0 }

/-- A concrete chain used by witnesses. -/
def chainW : Chain :=
  { selector := 77, deployerKey := 3, confirm := fun _ => .ok 0 }

/-- A concrete chain whose confirmation fails. -/
def chainNoConfirm : Chain :=
  { selector := 77, deployerKey := 3, confirm := fun _ => .error "timeout" }

/-- A contract set whose registry rejects every submission. -/
def csFailSubmit : ContractSet :=
  { capabilitiesRegistry :=
      Registry.ofTotal 5 [] pipeHash (fun _ _ => .error "boom") }

/-- A contract set whose registry accepts every submission. -/
def csOkSubmit : ContractSet :=
  { capabilitiesRegistry := Registry.ofTotal 5 [] pipeHash okSubmit }

/-- The prerequisite records a successful prerequisite run guarantees for a
chain (relative to the resolved options): every subsequent run skips every
deployment step. -/
def PrereqDone (o : PrereqOpts) (sel : Nat) (st : ChainState) : Prop :=
  st.rmnProxyExisting.isSome = true
  ∧ st.tokenAdminRegistry.isSome = true
  ∧ st.registryModule.isSome = true
  ∧ st.registryModuleAdded = true
  ∧ st.weth9.isSome = true
  ∧ st.linkToken.isSome = true
  ∧ st.router.isSome = true
  ∧ (o.multicall3Enabled = true → st.multicall3.isSome = true)
  ∧ (sel ∈ o.usdcEnabledChains → st.usdc.isSome = true)

/-- The gating records `deployChainContracts` requires before deploying. -/
def ChainReady (st : ChainState) : Prop :=
  st.weth9.isSome = true
  ∧ st.timelock.isSome = true
  ∧ st.linkToken.isSome = true
  ∧ st.tokenAdminRegistry.isSome = true
  ∧ st.registryModule.isSome = true
  ∧ st.router.isSome = true

/-- The records and wiring a successful `deployChainContracts` run
guarantees: every subsequent run skips every deployment step and rewrites
the same wiring configuration. -/
def ChainDone (digest deployerKey : Nat) (st : ChainState) : Prop :=
  ChainReady st
  ∧ st.receiver.isSome = true
  ∧ st.rmnRemote.isSome = true
  ∧ st.rmnProxyNew.isSome = true
  ∧ st.testRouter.isSome = true
  ∧ st.nonceManager.isSome = true
  ∧ st.feeQuoter.isSome = true
  ∧ (∃ oa, st.offRamp = some oa ∧ oa ∈ st.feeQuoterCallers
      ∧ oa ∈ st.nonceManagerCallers)
  ∧ (∃ ona, st.onRamp = some ona ∧ ona ∈ st.nonceManagerCallers)
  ∧ deployerKey ∈ st.feeQuoterCallers
  ∧ st.rmnRemoteDigest = some digest

/-- A target passes the per-chain checks of `configureChain`: its state is
loaded and its OffRamp recorded. -/
def goodTarget : Nat × Option TargetChainView → Bool
  | (_, none) => false
  | (_, some v) => v.offRamp.isSome

/-- The mutating Router calls `configureChain` issues for a list of
passing targets, in order. -/
def callsFor (targets : List (Nat × Option TargetChainView)) : List RouterCall :=
  targets.flatMap fun c => [.addChainConfig c.1, .addDON c.1]

/-- The error message `configureChain` produces for a target whose state or
OffRamp is missing. -/
def missingMsg (sel : Nat) : Option TargetChainView → String
  | none => "chain state not found for chain " ++ toString sel
  | some _ => "off ramp not found for chain " ++ toString sel

/-- Witness state: a chain with all six prerequisite records plus the
timelock, ready for `deployChainContracts`. -/
def stReadyW : ChainState :=
  { weth9 := some 1, timelock := some 2, linkToken := some 3
    tokenAdminRegistry := some 4, registryModule := some 5, router := some 6 }

/-- Witness state: a fully deployed and wired chain. -/
def stDoneW : ChainState :=
  { weth9 := some 1, timelock := some 2, linkToken := some 3
    tokenAdminRegistry := some 4, registryModule := some 5, router := some 6
    receiver := some 11, rmnRemote := some 12, rmnProxyNew := some 13
    testRouter := some 14, nonceManager := some 15, feeQuoter := some 16
    onRamp := some 8, offRamp := some 7, rmnRemoteDigest := some 9
    feeQuoterCallers := [7, 3], nonceManagerCallers := [7, 8] }

/-- Witness state: a chain with all prerequisite records in place. -/
def stPrereqW : ChainState :=
  { mockRMN := some 1, rmnProxyExisting := some 2, tokenAdminRegistry := some 3
    registryModule := some 4, registryModuleAdded := true, weth9 := some 5
    linkToken := some 6, router := some 7 }

/-- Witness Address Book: one record already present for chain 1. -/
def abW : List ContractRecord :=
  [{ selector := 1, kind := .weth9, version := "1.0.0", address := 5 }]

/-- Witness failure plan: only chain 2's Router deployment fails. -/
def failW : FailPlan :=
  fun sel k => decide (sel = 2) && decide (k = .router)

/-! ## Theorems -/

/-- In-request duplication by ID string, expressed as membership of the
mapped IDs. -/
theorem isDup_iff (earlier : List Capability) (c : Capability) :
    isDupOfEarlier sameCapabilityID earlier c = true ↔
      CapabilityID c ∈ earlier.map CapabilityID := by
  simp only [isDupOfEarlier, sameCapabilityID]
  constructor
  · intro h
    rcases List.any_eq_true.mp h with ⟨d, hd, hdc⟩
    exact List.mem_map.mpr ⟨d, hd, beq_iff_eq.mp hdc⟩
  · intro h
    rcases List.mem_map.mp h with ⟨d, hd, hdc⟩
    exact List.any_eq_true.mpr ⟨d, hd, beq_iff_eq.mpr hdc⟩


/-- The dedup loop on an empty candidate list returns the accumulator. -/
theorem dedupLoop_nil (r : Registry) (existing : List HashId)
    (seen : List String) (out : List Capability) :
    dedupLoop r existing [] seen out = .ok out := rfl

/-- One-step unfolding of the dedup loop over a registry with total reads. -/
theorem dedupLoop_ofTotal_cons (addr : Nat) (existing : List HashId)
    (hf : String → String → HashId)
    (submit : TxOpts → List Capability → Except String Nat)
    (c : Capability) (rest : List Capability) (seen : List String)
    (out : List Capability) :
    dedupLoop (Registry.ofTotal addr existing hf submit) existing (c :: rest)
        seen out
      = if CapabilityID c ∈ seen then
          dedupLoop (Registry.ofTotal addr existing hf submit) existing rest
            seen out
        else if hf c.labelledName c.version ∈ existing then
          dedupLoop (Registry.ofTotal addr existing hf submit) existing rest
            (CapabilityID c :: seen) out
        else
          dedupLoop (Registry.ofTotal addr existing hf submit) existing rest
            (CapabilityID c :: seen) (out ++ [c]) := rfl

/-- The survivor filter on an empty candidate list is empty. -/
theorem survivorsBy_nil (dup : Capability → Capability → Bool)
    (hf : String → String → HashId) (existing : List HashId)
    (earlier : List Capability) :
    survivorsBy dup hf existing [] earlier = [] := rfl

/-- One-step unfolding of the declarative survivor filter. -/
theorem survivorsBy_cons (dup : Capability → Capability → Bool)
    (hf : String → String → HashId) (existing : List HashId)
    (c : Capability) (rest earlier : List Capability) :
    survivorsBy dup hf existing (c :: rest) earlier
      = if hf c.labelledName c.version ∈ existing ∨
            isDupOfEarlier dup earlier c = true then
          survivorsBy dup hf existing rest (earlier ++ [c])
        else
          c :: survivorsBy dup hf existing rest (earlier ++ [c]) := rfl

/-- The dedup loop against a registry with total read calls computes the
declarative ID-string survivor filter, for any consistent accumulators. -/
theorem dedupLoop_ofTotal (addr : Nat) (existing : List HashId)
    (hf : String → String → HashId)
    (submit : TxOpts → List Capability → Except String Nat)
    (caps : List Capability) :
    ∀ (seen : List String) (earlier out : List Capability),
      (∀ str, str ∈ seen ↔ str ∈ earlier.map CapabilityID) →
      dedupLoop (Registry.ofTotal addr existing hf submit) existing caps seen
          out
        = .ok (out ++ survivorsBy sameCapabilityID hf existing caps earlier) := by
  induction caps with
  | nil =>
    intro seen earlier out _
    rw [dedupLoop_nil, survivorsBy_nil]
    simp
  | cons c rest ih =>
    intro seen earlier out hseen
    rw [dedupLoop_ofTotal_cons, survivorsBy_cons]
    by_cases hdup : CapabilityID c ∈ seen
    · have hdp : isDupOfEarlier sameCapabilityID earlier c = true :=
        (isDup_iff earlier c).mpr ((hseen _).mp hdup)
      have hinv : ∀ str, str ∈ seen ↔
          str ∈ (earlier ++ [c]).map CapabilityID := by
        intro str
        constructor
        · intro h
          simp only [List.map_append, List.mem_append]
          exact Or.inl ((hseen str).mp h)
        · intro h
          rcases (by simpa using h :
              str ∈ earlier.map CapabilityID ∨ str = CapabilityID c) with h1 | h1
          · exact (hseen str).mpr h1
          · exact h1 ▸ hdup
      rw [if_pos hdup, if_pos (Or.inr hdp)]
      exact ih seen (earlier ++ [c]) out hinv
    · have hdp : isDupOfEarlier sameCapabilityID earlier c = false := by
        cases h : isDupOfEarlier sameCapabilityID earlier c
        · rfl
        · exact absurd ((hseen _).mpr ((isDup_iff earlier c).mp h)) hdup
      have hinv : ∀ str, str ∈ CapabilityID c :: seen ↔
          str ∈ (earlier ++ [c]).map CapabilityID := by
        intro str
        constructor
        · intro h
          rcases List.mem_cons.mp h with h1 | h1
          · simp [h1]
          · simp only [List.map_append, List.mem_append]
            exact Or.inl ((hseen str).mp h1)
        · intro h
          rcases (by simpa using h :
              str ∈ earlier.map CapabilityID ∨ str = CapabilityID c) with h1 | h1
          · exact List.mem_cons.mpr (Or.inr ((hseen str).mpr h1))
          · exact List.mem_cons.mpr (Or.inl h1)
      rw [if_neg hdup]
      by_cases hex : hf c.labelledName c.version ∈ existing
      · rw [if_pos hex, if_pos (Or.inl hex)]
        exact ih (CapabilityID c :: seen) (earlier ++ [c]) out hinv
      · rw [if_neg hex, if_neg (by simp [hex, hdp])]
        rw [ih (CapabilityID c :: seen) (earlier ++ [c]) (out ++ [c]) hinv]
        simp

/-- `dedupCapabilities` against a registry with total read calls is the
declarative ID-string survivor filter. -/
theorem dedup_ofTotal (addr : Nat) (existing : List HashId)
    (hf : String → String → HashId)
    (submit : TxOpts → List Capability → Except String Nat)
    (caps : List Capability) :
    dedupCapabilities (Registry.ofTotal addr existing hf submit) caps
      = .ok (dedupSpecID hf existing caps) := by
  have h := dedupLoop_ofTotal addr existing hf submit caps [] [] []
    (by intro str; simp)
  simpa [dedupCapabilities, Registry.ofTotal, dedupSpecID] using h

/-- C1 (amended): for every requested list of capability descriptors and
every set of hashes already registered in the registry (with the registry
read calls succeeding), `dedupCapabilities` returns exactly those requested
descriptors that are neither already registered (compared by the
registry-derived hash of (name, version), ignoring all other fields) nor
duplicates of an earlier descriptor in the same request — where an
in-request duplicate is one whose joined ID string `name@"@"version` equals
an earlier descriptor's (first occurrence wins) — in the original relative
order; in particular, requesting [A@1.0, B@1.0, A@1.0] against a registry
already containing A@1.0 returns [B@1.0]. -/
theorem dedupCapabilities_returns_survivors (addr : Nat)
    (existing : List HashId) (hf : String → String → HashId)
    (submit : TxOpts → List Capability → Except String Nat)
    (caps : List Capability) :
    dedupCapabilities (Registry.ofTotal addr existing hf submit) caps
      = .ok (dedupSpecID hf existing caps)
    ∧ dedupCapabilities scenarioRegistry [capA10, capB10, capA10]
      = .ok [capB10] :=
  ⟨dedup_ofTotal addr existing hf submit caps, rfl⟩

/-- C1 counterexample: with in-request duplicates read as equality of the
(name, version) pair — the identity the claim assigns to descriptors — the
claim fails: the two distinct descriptors ("A@1","0") and ("A","1@0") have
distinct (name, version) pairs and distinct registry hashes, yet the code
conflates their joined ID string "A@1@0" and drops the second, while the
claimed survivor set keeps both. -/
theorem dedupCapabilities_pair_claim_false :
    dedupCapabilities emptyRegistry [capColl1, capColl2] = .ok [capColl1]
    ∧ dedupSpecPair pipeHash [] [capColl1, capColl2] = [capColl1, capColl2]
    ∧ capColl1 ≠ capColl2
    ∧ pipeHash capColl1.labelledName capColl1.version
        ≠ pipeHash capColl2.labelledName capColl2.version :=
  ⟨rfl, by decide, by decide, by decide⟩

/-- C9: for an empty requested capability list, `AddCapabilities` returns a
nil batch operation and a nil error without reading the registry,
submitting any transaction, confirming, or producing any other effect,
regardless of the execution mode. -/
theorem addCapabilities_empty_noop (cs : ContractSet) (chain : Chain)
    (useMCMS : Bool) :
    AddCapabilities cs chain [] useMCMS
      = { batch := none, error := none, effects := Effects.empty } := rfl

/-- Helper: the full output of a batched-mode `AddCapabilities` call on a
registry with total reads and always-accepted submissions. -/
theorem addCapabilities_mcms_eq (addr : Nat) (existing : List HashId)
    (hf : String → String → HashId) (submitRes : List Capability → Nat)
    (chain : Chain) (caps : List Capability) (hne : caps ≠ []) :
    AddCapabilities
        { capabilitiesRegistry :=
            Registry.ofTotal addr existing hf fun _ d => .ok (submitRes d) }
        chain caps true
      = { batch := some
            { chainIdentifier := chain.selector
              batch := [{ target := addr
                          data := .addCapabilities
                            (dedupSpecID hf existing caps)
                          value := 0 }] }
          error := none
          effects := { readRegistry := true
                       submitOpts := some SimTransactOpts
                       submitted := false
                       confirmCalled := false } } := by
  rcases caps with _ | ⟨c, rest⟩
  · exact absurd rfl hne
  · simp only [AddCapabilities]
    rw [dedup_ofTotal]
    simp [Registry.ofTotal, SimTransactOpts]

/-- C3: in batched (MCMS) mode, for every non-empty capability request
against a registry whose calls succeed, `AddCapabilities` causes no
on-chain effect — nothing is sent and `chain.Confirm` is never called — and
returns a batch operation scoped to the calling chain's selector containing
exactly one operation whose target is the registry address, whose data is
the encoded AddCapabilities call (of the deduplicated request), and whose
value is 0. -/
theorem addCapabilities_mcms_batched (addr : Nat) (existing : List HashId)
    (hf : String → String → HashId) (submitRes : List Capability → Nat)
    (chain : Chain) (caps : List Capability) (hne : caps ≠ []) :
    AddCapabilities
        { capabilitiesRegistry :=
            Registry.ofTotal addr existing hf fun _ d => .ok (submitRes d) }
        chain caps true
      = { batch := some
            { chainIdentifier := chain.selector
              batch := [{ target := addr
                          data := .addCapabilities
                            (dedupSpecID hf existing caps)
                          value := 0 }] }
          error := none
          effects := { readRegistry := true
                       submitOpts := some SimTransactOpts
                       submitted := false
                       confirmCalled := false } } :=
  addCapabilities_mcms_eq addr existing hf submitRes chain caps hne

/-- C3 witness: a concrete non-empty request in MCMS mode. -/
theorem addCapabilities_mcms_batched_witness :
    AddCapabilities
        { capabilitiesRegistry :=
            Registry.ofTotal 5 [] pipeHash fun _ d => .ok d.length }
        chainW [capA10] true
      = { batch := some
            { chainIdentifier := 77
              batch := [{ target := 5
                          data := .addCapabilities [capA10]
                          value := 0 }] }
          error := none
          effects := { readRegistry := true
                       submitOpts := some SimTransactOpts
                       submitted := false
                       confirmCalled := false } } := by
  have h := addCapabilities_mcms_batched 5 [] pipeHash List.length chainW
    [capA10] (by decide)
  exact h.trans (by decide)

/-- In direct mode, after a successful dedup, `AddCapabilities` submits
with the deployer key and either fails on submission, fails on
confirmation, or succeeds — with the corresponding outputs. -/
theorem addCapabilities_direct_unfold (cs : ContractSet) (chain : Chain)
    (c : Capability) (rest : List Capability) (d : List Capability)
    (hd : dedupCapabilities cs.capabilitiesRegistry (c :: rest) = .ok d) :
    AddCapabilities cs chain (c :: rest) false
      = match cs.capabilitiesRegistry.submitAddCapabilities
            { fromKey := chain.deployerKey, noSend := false } d with
        | .error e =>
          { batch := none
            error := some ("failed to add capabilities: " ++ e)
            effects := { readRegistry := true
                         submitOpts := some { fromKey := chain.deployerKey
                                              noSend := false }
                         submitted := false, confirmCalled := false } }
        | .ok txHash =>
          match chain.confirm txHash with
          | .error e =>
            { batch := none
              error := some
                ("failed to confirm AddCapabilities confirm transaction: "
                  ++ e)
              effects := { readRegistry := true
                           submitOpts := some { fromKey := chain.deployerKey
                                                noSend := false }
                           submitted := true, confirmCalled := true } }
          | .ok _ =>
            { batch := none, error := none
              effects := { readRegistry := true
                           submitOpts := some { fromKey := chain.deployerKey
                                                noSend := false }
                           submitted := true, confirmCalled := true } } := by
  simp only [AddCapabilities, hd]
  cases hs : cs.capabilitiesRegistry.submitAddCapabilities
      { fromKey := chain.deployerKey, noSend := false } d with
  | error e => simp [hs]
  | ok txHash =>
    cases hc : chain.confirm txHash with
    | error e => simp [hs, hc]
    | ok r => simp [hs, hc]

/-- C4: in direct (non-MCMS) mode, `AddCapabilities` always returns a nil
batch operation; for a non-empty request whose dedup succeeds, it attempts
the submission signed with the deployer key (NoSend unset); if the
submission fails it returns a non-nil error; if the submission succeeds it
sends the transaction and blocks on `chain.Confirm`, and a failed
confirmation again yields a non-nil error. -/
theorem addCapabilities_direct (cs : ContractSet) (chain : Chain)
    (caps : List Capability) :
    (AddCapabilities cs chain caps false).batch = none
    ∧ ∀ d, caps ≠ [] →
        dedupCapabilities cs.capabilitiesRegistry caps = .ok d →
        (AddCapabilities cs chain caps false).effects.submitOpts
            = some { fromKey := chain.deployerKey, noSend := false }
        ∧ (∀ e,
            cs.capabilitiesRegistry.submitAddCapabilities
                { fromKey := chain.deployerKey, noSend := false } d
              = .error e →
            (AddCapabilities cs chain caps false).error.isSome = true)
        ∧ ∀ txHash,
            cs.capabilitiesRegistry.submitAddCapabilities
                { fromKey := chain.deployerKey, noSend := false } d
              = .ok txHash →
            (AddCapabilities cs chain caps false).effects.confirmCalled = true
            ∧ (AddCapabilities cs chain caps false).effects.submitted = true
            ∧ ∀ e, chain.confirm txHash = .error e →
                (AddCapabilities cs chain caps false).error.isSome = true := by
  rcases caps with _ | ⟨c, rest⟩
  · exact ⟨rfl, fun d hne _ => absurd rfl hne⟩
  · constructor
    · cases hd : dedupCapabilities cs.capabilitiesRegistry (c :: rest) with
      | error e => simp [AddCapabilities, hd]
      | ok d =>
        rw [addCapabilities_direct_unfold cs chain c rest d hd]
        cases hs : cs.capabilitiesRegistry.submitAddCapabilities
            { fromKey := chain.deployerKey, noSend := false } d with
        | error e => rfl
        | ok txHash =>
          cases hc : chain.confirm txHash with
          | error e => simp [hc]
          | ok r => simp [hc]
    · intro d _ hd
      rw [addCapabilities_direct_unfold cs chain c rest d hd]
      cases hs : cs.capabilitiesRegistry.submitAddCapabilities
          { fromKey := chain.deployerKey, noSend := false } d with
      | error e =>
        refine ⟨rfl, fun e' _ => rfl, ?_⟩
        intro txHash h
        simp at h
      | ok txHash =>
        refine ⟨?_, ?_, ?_⟩
        · cases hc : chain.confirm txHash with
          | error e => simp [hc]
          | ok r => simp [hc]
        · intro e h
          simp at h
        · intro txHash' h
          have heq : txHash = txHash' := by simpa using h
          subst heq
          refine ⟨?_, ?_, ?_⟩
          · cases hc : chain.confirm txHash with
            | error e => simp [hc]
            | ok r => simp [hc]
          · cases hc : chain.confirm txHash with
            | error e => simp [hc]
            | ok r => simp [hc]
          · intro e he
            simp [he]

/-- C4 witness: a concrete direct-mode run whose submission fails yields a
nil batch and a non-nil error. -/
theorem addCapabilities_direct_witness :
    (AddCapabilities csFailSubmit chainW [capA10] false).batch = none
    ∧ (AddCapabilities csFailSubmit chainW [capA10] false).error.isSome
        = true := by
  have h := addCapabilities_direct csFailSubmit chainW [capA10]
  refine ⟨h.1, ?_⟩
  have h2 := h.2 [capA10] (by decide) rfl
  exact h2.2.1 "boom" rfl

/-- Sequencing after a successful step runs the continuation. -/
theorem seqS_ok (s : RunS) (f : RunS → StepResult) :
    seqS (s, none) f = f s := rfl

/-- Sequencing after a failed step propagates the failure. -/
theorem seqS_err (s : RunS) (e : String) (f : RunS → StepResult) :
    seqS (s, some e) f = (s, some e) := rfl

/-- Inserting a present caller is a no-op. -/
theorem addCaller_mem (callers : List Nat) (a : Nat) (h : a ∈ callers) :
    addCaller callers a = callers := by
  simp [addCaller, h]

/-- The inserted caller is a member afterwards. -/
theorem mem_addCaller_self (callers : List Nat) (a : Nat) :
    a ∈ addCaller callers a := by
  by_cases h : a ∈ callers <;> simp [addCaller, h]

/-- Insertion preserves membership. -/
theorem mem_addCaller_of_mem (callers : List Nat) (a b : Nat)
    (h : b ∈ callers) : b ∈ addCaller callers a := by
  by_cases ha : a ∈ callers <;> simp [addCaller, ha, h]

/-- A skip-if-exists step with its record already present is a no-op. -/
theorem stepDeployIfAbsent_skip (fail : FailPlan) (sel : Nat)
    (k : ContractKind) (ver : String) (get : ChainState → Option Nat)
    (set : ChainState → Nat → ChainState) (s : RunS)
    (h : (get s.st).isSome = true) :
    stepDeployIfAbsent fail sel k ver get set s = (s, none) := by
  cases hg : get s.st with
  | none => rw [hg] at h; cases h
  | some a => simp [stepDeployIfAbsent, hg]

/-- A skip-if-exists step whose deployment cannot fail succeeds, leaves its
record present, only touches its own field, extends the delta with records
tagged by its own selector, and keeps the wiring log. -/
theorem stepDeployIfAbsent_run (fail : FailPlan) (sel : Nat)
    (k : ContractKind) (ver : String) (get : ChainState → Option Nat)
    (set : ChainState → Nat → ChainState) (s : RunS)
    (hfk : fail sel k = false) (hset : ∀ st a, get (set st a) = some a) :
    ∃ s', stepDeployIfAbsent fail sel k ver get set s = (s', none)
      ∧ (get s'.st).isSome = true
      ∧ (∀ {α : Type} (g : ChainState → α),
          (∀ st a, g (set st a) = g st) → g s'.st = g s.st)
      ∧ (∃ ext, s'.delta = s.delta ++ ext ∧ ∀ r ∈ ext, r.selector = sel)
      ∧ s'.wiring = s.wiring := by
  cases hg : get s.st with
  | some a =>
    refine ⟨s, stepDeployIfAbsent_skip fail sel k ver get set s
        (by rw [hg]; rfl), by rw [hg]; rfl, ?_, ⟨[], by simp⟩, rfl⟩
    intro α g _
    rfl
  | none =>
    refine ⟨{ st := set s.st s.next, next := s.next + 1, delta := s.delta ++ [{ selector := sel, kind := k, version := ver, address := s.next }], wiring := s.wiring }, by simp [stepDeployIfAbsent, hg, hfk], by simp [hset], ?_, ⟨[{ selector := sel, kind := k, version := ver, address := s.next }], rfl, by simp⟩, rfl⟩
    intro α g hg2
    exact hg2 s.st s.next

/-- The RMNProxy step with its proxy already recorded is a no-op. -/
theorem stepRMNProxy_skip (fail : FailPlan) (sel : Nat) (s : RunS)
    (h : s.st.rmnProxyExisting.isSome = true) :
    stepRMNProxy fail sel s = (s, none) := by
  cases hg : s.st.rmnProxyExisting with
  | none => rw [hg] at h; cases h
  | some a => simp [stepRMNProxy, hg]

/-- The RMNProxy step with no injected failure succeeds, leaves the proxy
present, touches only mockRMN and rmnProxyExisting, extends the delta with
own-selector records (non-trivially when the proxy was absent), and keeps
the wiring log. -/
theorem stepRMNProxy_run (fail : FailPlan) (sel : Nat) (s : RunS)
    (hf1 : fail sel .mockRMN = false) (hf2 : fail sel .armProxy = false) :
    ∃ s', stepRMNProxy fail sel s = (s', none)
      ∧ s'.st.rmnProxyExisting.isSome = true
      ∧ (∀ {α : Type} (g : ChainState → α),
          (∀ st a, g (setMockRMN st a) = g st) →
          (∀ st a, g (setRMNProxyExisting st a) = g st) →
          g s'.st = g s.st)
      ∧ (∃ ext, s'.delta = s.delta ++ ext ∧ (∀ r ∈ ext, r.selector = sel)
          ∧ (s.st.rmnProxyExisting = none → ext ≠ []))
      ∧ s'.wiring = s.wiring := by
  cases hg : s.st.rmnProxyExisting with
  | some a =>
    refine ⟨s, stepRMNProxy_skip fail sel s (by rw [hg]; rfl),
      by rw [hg]; rfl, ?_, ⟨[], by simp, by simp, ?_⟩, rfl⟩
    · intro α g _ _
      rfl
    · intro h
      simp [hg] at h
  | none =>
    refine ⟨{ st := setRMNProxyExisting (setMockRMN s.st s.next) (s.next + 1), next := s.next + 2, delta := s.delta ++ [{ selector := sel, kind := .mockRMN, version := "1.0.0", address := s.next }, { selector := sel, kind := .armProxy, version := "1.0.0", address := s.next + 1 }], wiring := s.wiring }, ?_, rfl, ?_, ?_, rfl⟩
    · simp [stepRMNProxy, hg, hf1, hf2]
    · intro α g h1 h2
      exact (h2 (setMockRMN s.st s.next) (s.next + 1)).trans
        (h1 s.st s.next)
    · exact ⟨[{ selector := sel, kind := .mockRMN, version := "1.0.0", address := s.next }, { selector := sel, kind := .armProxy, version := "1.0.0", address := s.next + 1 }], rfl, by simp, by simp⟩

/-- The AddRegistryModule step always succeeds, establishes the flag,
touches only the flag, and keeps delta and wiring. -/
theorem stepAddRegistryModule_run (s : RunS) :
    ∃ s', stepAddRegistryModule s = (s', none)
      ∧ s'.st.registryModuleAdded = true
      ∧ (∀ {α : Type} (g : ChainState → α),
          (∀ st, g (setRegistryModuleAdded st) = g st) →
          g s'.st = g s.st)
      ∧ s'.delta = s.delta ∧ s'.wiring = s.wiring := by
  by_cases h : s.st.registryModuleAdded = true
  · refine ⟨s, by simp [stepAddRegistryModule, h], h, ?_, rfl, rfl⟩
    intro α g _
    rfl
  · refine ⟨{ s with st := setRegistryModuleAdded s.st },
      by simp [stepAddRegistryModule, h], rfl, ?_, rfl, rfl⟩
    intro α g hg
    exact hg s.st

/-- The AddRegistryModule step with the flag already set is a no-op. -/
theorem stepAddRegistryModule_skip (s : RunS)
    (h : s.st.registryModuleAdded = true) :
    stepAddRegistryModule s = (s, none) := by
  simp [stepAddRegistryModule, h]

/-- The Multicall3 step skips when disabled or already recorded. -/
theorem stepMulticall3_noop (fail : FailPlan) (enabled : Bool) (sel : Nat)
    (s : RunS) (h : enabled = true → s.st.multicall3.isSome = true) :
    stepMulticall3 fail enabled sel s = (s, none) := by
  cases he : enabled with
  | false => simp [stepMulticall3, he]
  | true =>
    cases hm : s.st.multicall3 with
    | none =>
      rw [he] at h
      rw [hm] at h
      cases h rfl
    | some a => simp [stepMulticall3, he, hm]

/-- The Multicall3 step with no injected failure succeeds, leaves the
record present when enabled, touches only its field, extends the delta with
own-selector records, and keeps the wiring log. -/
theorem stepMulticall3_run (fail : FailPlan) (enabled : Bool) (sel : Nat)
    (s : RunS) (hfk : fail sel .multicall3 = false) :
    ∃ s', stepMulticall3 fail enabled sel s = (s', none)
      ∧ (enabled = true → s'.st.multicall3.isSome = true)
      ∧ (∀ {α : Type} (g : ChainState → α),
          (∀ st a, g (setMulticall3 st a) = g st) →
          g s'.st = g s.st)
      ∧ (∃ ext, s'.delta = s.delta ++ ext ∧ ∀ r ∈ ext, r.selector = sel)
      ∧ s'.wiring = s.wiring := by
  cases he : enabled with
  | false =>
    refine ⟨s, by simp [stepMulticall3, he], ?_, ?_, ⟨[], by simp⟩, rfl⟩
    · intro h
      exact nomatch h
    · intro α g _
      rfl
  | true =>
    cases hm : s.st.multicall3 with
    | some a =>
      refine ⟨s, by simp [stepMulticall3, he, hm], ?_, ?_, ⟨[], by simp⟩, rfl⟩
      · intro _
        rw [hm]
        rfl
      · intro α g _
        rfl
    | none =>
      obtain ⟨s', he', hp, hfr, hext, hw⟩ :=
        stepDeployIfAbsent_run fail sel .multicall3 "1.0.0"
          (fun st => st.multicall3) setMulticall3 s hfk
          (by intro st a; rfl)
      refine ⟨s', ?_, fun _ => hp, hfr, hext, hw⟩
      simpa [stepMulticall3, he, hm] using he'

/-- The USDC step skips when the chain is not USDC-enabled or the record
exists. -/
theorem stepUSDC_noop (fail : FailPlan) (isUSDC : Bool) (sel : Nat)
    (s : RunS) (h : isUSDC = true → s.st.usdc.isSome = true) :
    stepUSDC fail isUSDC sel s = (s, none) := by
  cases hu : isUSDC with
  | false => simp [stepUSDC, hu]
  | true =>
    rw [hu] at h
    have := stepDeployIfAbsent_skip fail sel .usdc "1.0.0"
      (fun st => st.usdc) setUSDC s (h rfl)
    simpa [stepUSDC, hu] using this

/-- The USDC step with no injected failure succeeds, leaves the record
present when enabled, touches only its field, extends the delta with
own-selector records, and keeps the wiring log. -/
theorem stepUSDC_run (fail : FailPlan) (isUSDC : Bool) (sel : Nat)
    (s : RunS) (hfk : fail sel .usdc = false) :
    ∃ s', stepUSDC fail isUSDC sel s = (s', none)
      ∧ (isUSDC = true → s'.st.usdc.isSome = true)
      ∧ (∀ {α : Type} (g : ChainState → α),
          (∀ st a, g (setUSDC st a) = g st) →
          g s'.st = g s.st)
      ∧ (∃ ext, s'.delta = s.delta ++ ext ∧ ∀ r ∈ ext, r.selector = sel)
      ∧ s'.wiring = s.wiring := by
  cases hu : isUSDC with
  | false =>
    refine ⟨s, by simp [stepUSDC, hu], ?_, ?_, ⟨[], by simp⟩, rfl⟩
    · intro h
      exact nomatch h
    · intro α g _
      rfl
  | true =>
    obtain ⟨s', he', hp, hfr, hext, hw⟩ :=
      stepDeployIfAbsent_run fail sel .usdc "1.0.0"
        (fun st => st.usdc) setUSDC s hfk
        (by intro st a; rfl)
    refine ⟨s', ?_, fun _ => hp, hfr, hext, hw⟩
    simpa [stepUSDC, hu] using he'

/-- A prerequisite run with no injected failures on its chain succeeds,
establishes all prerequisite records, tags every delta record with its own
selector, issues no wiring, and deploys at least one contract when the
chain was absent from the loaded state. -/
theorem deployPrerequisiteContracts_run (fail : FailPlan)
    (opts : List PrerequisiteOpt) (sel : Nat) (chainSt : Option ChainState)
    (next : Nat) (hfa : ∀ k, fail sel k = false) :
    ∃ s', deployPrerequisiteContracts fail opts sel chainSt next = (s', none)
      ∧ PrereqDone (resolveOpts opts) sel s'.st
      ∧ (∀ r ∈ s'.delta, r.selector = sel)
      ∧ s'.wiring = []
      ∧ (chainSt = none → s'.delta ≠ []) := by
  obtain ⟨s1, e1, p1, fr1, ⟨ext1, hd1, hsel1, hne1⟩, w1⟩ :=
    stepRMNProxy_run fail sel
      { st := chainSt.getD {}, next := next, delta := [], wiring := [] }
      (hfa _) (hfa _)
  obtain ⟨s2, e2, p2, fr2, ⟨ext2, hd2, hsel2⟩, w2⟩ :=
    stepDeployIfAbsent_run fail sel .tokenAdminRegistry "1.5.0"
      (fun st => st.tokenAdminRegistry) setTokenAdminRegistry s1 (hfa _)
      (fun st a => rfl)
  obtain ⟨s3, e3, p3, fr3, ⟨ext3, hd3, hsel3⟩, w3⟩ :=
    stepDeployIfAbsent_run fail sel .registryModule "1.5.0"
      (fun st => st.registryModule) setRegistryModule s2 (hfa _)
      (fun st a => rfl)
  obtain ⟨s4, e4, p4, fr4, hd4, w4⟩ := stepAddRegistryModule_run s3
  obtain ⟨s5, e5, p5, fr5, ⟨ext5, hd5, hsel5⟩, w5⟩ :=
    stepDeployIfAbsent_run fail sel .weth9 "1.0.0"
      (fun st => st.weth9) setWeth9 s4 (hfa _) (fun st a => rfl)
  obtain ⟨s6, e6, p6, fr6, ⟨ext6, hd6, hsel6⟩, w6⟩ :=
    stepDeployIfAbsent_run fail sel .linkToken "1.0.0"
      (fun st => st.linkToken) setLinkToken s5 (hfa _) (fun st a => rfl)
  obtain ⟨s7, e7, p7, fr7, ⟨ext7, hd7, hsel7⟩, w7⟩ :=
    stepDeployIfAbsent_run fail sel .router "1.2.0"
      (fun st => st.router) setRouter s6 (hfa _) (fun st a => rfl)
  obtain ⟨s8, e8, p8, fr8, ⟨ext8, hd8, hsel8⟩, w8⟩ :=
    stepMulticall3_run fail (resolveOpts opts).multicall3Enabled sel s7
      (hfa _)
  obtain ⟨s9, e9, p9, fr9, ⟨ext9, hd9, hsel9⟩, w9⟩ :=
    stepUSDC_run fail (decide (sel ∈ (resolveOpts opts).usdcEnabledChains))
      sel s8 (hfa _)
  have Ermn : s9.st.rmnProxyExisting = s1.st.rmnProxyExisting :=
    ((((((((fr9 (fun st => st.rmnProxyExisting) (fun st a => rfl))).trans (fr8 (fun st => st.rmnProxyExisting) (fun st a => rfl))).trans (fr7 (fun st => st.rmnProxyExisting) (fun st a => rfl))).trans (fr6 (fun st => st.rmnProxyExisting) (fun st a => rfl))).trans (fr5 (fun st => st.rmnProxyExisting) (fun st a => rfl))).trans (fr4 (fun st => st.rmnProxyExisting) (fun st => rfl))).trans (fr3 (fun st => st.rmnProxyExisting) (fun st a => rfl))).trans (fr2 (fun st => st.rmnProxyExisting) (fun st a => rfl))
  have Etar : s9.st.tokenAdminRegistry = s2.st.tokenAdminRegistry :=
    (((((((fr9 (fun st => st.tokenAdminRegistry) (fun st a => rfl))).trans (fr8 (fun st => st.tokenAdminRegistry) (fun st a => rfl))).trans (fr7 (fun st => st.tokenAdminRegistry) (fun st a => rfl))).trans (fr6 (fun st => st.tokenAdminRegistry) (fun st a => rfl))).trans (fr5 (fun st => st.tokenAdminRegistry) (fun st a => rfl))).trans (fr4 (fun st => st.tokenAdminRegistry) (fun st => rfl))).trans (fr3 (fun st => st.tokenAdminRegistry) (fun st a => rfl))
  have Erm : s9.st.registryModule = s3.st.registryModule :=
    ((((((fr9 (fun st => st.registryModule) (fun st a => rfl))).trans (fr8 (fun st => st.registryModule) (fun st a => rfl))).trans (fr7 (fun st => st.registryModule) (fun st a => rfl))).trans (fr6 (fun st => st.registryModule) (fun st a => rfl))).trans (fr5 (fun st => st.registryModule) (fun st a => rfl))).trans (fr4 (fun st => st.registryModule) (fun st => rfl))
  have Eflag : s9.st.registryModuleAdded = s4.st.registryModuleAdded :=
    (((((fr9 (fun st => st.registryModuleAdded) (fun st a => rfl))).trans (fr8 (fun st => st.registryModuleAdded) (fun st a => rfl))).trans (fr7 (fun st => st.registryModuleAdded) (fun st a => rfl))).trans (fr6 (fun st => st.registryModuleAdded) (fun st a => rfl))).trans (fr5 (fun st => st.registryModuleAdded) (fun st a => rfl))
  have Eweth : s9.st.weth9 = s5.st.weth9 :=
    ((((fr9 (fun st => st.weth9) (fun st a => rfl))).trans (fr8 (fun st => st.weth9) (fun st a => rfl))).trans (fr7 (fun st => st.weth9) (fun st a => rfl))).trans (fr6 (fun st => st.weth9) (fun st a => rfl))
  have Elink : s9.st.linkToken = s6.st.linkToken :=
    (((fr9 (fun st => st.linkToken) (fun st a => rfl))).trans (fr8 (fun st => st.linkToken) (fun st a => rfl))).trans (fr7 (fun st => st.linkToken) (fun st a => rfl))
  have Erouter : s9.st.router = s7.st.router :=
    ((fr9 (fun st => st.router) (fun st a => rfl))).trans (fr8 (fun st => st.router) (fun st a => rfl))
  have Emc : s9.st.multicall3 = s8.st.multicall3 :=
    (fr9 (fun st => st.multicall3) (fun st a => rfl))
  refine ⟨s9, ?_, ⟨?_, ?_, ?_, ?_, ?_, ?_, ?_, ?_, ?_⟩, ?_, ?_, ?_⟩
  · simp only [deployPrerequisiteContracts]
    rw [e1]
    simp only [seqS_ok]
    rw [e2]
    simp only [seqS_ok]
    rw [e3]
    simp only [seqS_ok]
    rw [e4]
    simp only [seqS_ok]
    rw [e5]
    simp only [seqS_ok]
    rw [e6]
    simp only [seqS_ok]
    rw [e7]
    simp only [seqS_ok]
    rw [e8]
    simp only [seqS_ok]
    rw [e9]
  · rw [Ermn]; exact p1
  · rw [Etar]; exact p2
  · rw [Erm]; exact p3
  · rw [Eflag]; exact p4
  · rw [Eweth]; exact p5
  · rw [Elink]; exact p6
  · rw [Erouter]; exact p7
  · intro hme
    rw [Emc]
    exact p8 hme
  · intro hu
    exact p9 (decide_eq_true hu)
  · have Hsel1 : ∀ r ∈ s1.delta, r.selector = sel := by
      intro r hr
      rw [hd1] at hr
      rcases List.mem_append.mp hr with h | h
      · simp at h
      · exact hsel1 r h
    have Hsel2 : ∀ r ∈ s2.delta, r.selector = sel := by
      intro r hr
      rw [hd2] at hr
      rcases List.mem_append.mp hr with h | h
      · exact Hsel1 r h
      · exact hsel2 r h
    have Hsel3 : ∀ r ∈ s3.delta, r.selector = sel := by
      intro r hr
      rw [hd3] at hr
      rcases List.mem_append.mp hr with h | h
      · exact Hsel2 r h
      · exact hsel3 r h
    have Hsel4 : ∀ r ∈ s4.delta, r.selector = sel := by
      intro r hr
      rw [hd4] at hr
      exact Hsel3 r hr
    have Hsel5 : ∀ r ∈ s5.delta, r.selector = sel := by
      intro r hr
      rw [hd5] at hr
      rcases List.mem_append.mp hr with h | h
      · exact Hsel4 r h
      · exact hsel5 r h
    have Hsel6 : ∀ r ∈ s6.delta, r.selector = sel := by
      intro r hr
      rw [hd6] at hr
      rcases List.mem_append.mp hr with h | h
      · exact Hsel5 r h
      · exact hsel6 r h
    have Hsel7 : ∀ r ∈ s7.delta, r.selector = sel := by
      intro r hr
      rw [hd7] at hr
      rcases List.mem_append.mp hr with h | h
      · exact Hsel6 r h
      · exact hsel7 r h
    have Hsel8 : ∀ r ∈ s8.delta, r.selector = sel := by
      intro r hr
      rw [hd8] at hr
      rcases List.mem_append.mp hr with h | h
      · exact Hsel7 r h
      · exact hsel8 r h
    intro r hr
    rw [hd9] at hr
    rcases List.mem_append.mp hr with h | h
    · exact Hsel8 r h
    · exact hsel9 r h
  · rw [w9, w8, w7, w6, w5, w4, w3, w2, w1]
  · intro hnone hcontra
    rw [hd9] at hcontra
    obtain ⟨h8', -⟩ := List.append_eq_nil.mp hcontra
    rw [hd8] at h8'
    obtain ⟨h7', -⟩ := List.append_eq_nil.mp h8'
    rw [hd7] at h7'
    obtain ⟨h6', -⟩ := List.append_eq_nil.mp h7'
    rw [hd6] at h6'
    obtain ⟨h5', -⟩ := List.append_eq_nil.mp h6'
    rw [hd5] at h5'
    obtain ⟨h4', -⟩ := List.append_eq_nil.mp h5'
    rw [hd4] at h4'
    rw [hd3] at h4'
    obtain ⟨h2', -⟩ := List.append_eq_nil.mp h4'
    rw [hd2] at h2'
    obtain ⟨h1', -⟩ := List.append_eq_nil.mp h2'
    rw [hd1] at h1'
    obtain ⟨-, hext1⟩ := List.append_eq_nil.mp h1'
    exact hne1 (by rw [hnone]; rfl) hext1

/-- Skip-if-exists: a prerequisite run against a chain whose prerequisite
records are all present performs no deployment at all — the state is
unchanged, the delta is empty and no error is returned — under any failure
plan (no deployment is even attempted). -/
theorem deployPrerequisiteContracts_noop (fail : FailPlan)
    (opts : List PrerequisiteOpt) (sel : Nat) (st : ChainState) (next : Nat)
    (h : PrereqDone (resolveOpts opts) sel st) :
    deployPrerequisiteContracts fail opts sel (some st) next
      = ({ st := st, next := next, delta := [], wiring := [] }, none) := by
  obtain ⟨h1, h2, h3, h4, h5, h6, h7, h8, h9⟩ := h
  simp only [deployPrerequisiteContracts, Option.getD_some]
  rw [stepRMNProxy_skip fail sel { st := st, next := next, delta := [], wiring := [] } h1]
  simp only [seqS_ok]
  rw [stepDeployIfAbsent_skip fail sel .tokenAdminRegistry "1.5.0" (fun c => c.tokenAdminRegistry) setTokenAdminRegistry { st := st, next := next, delta := [], wiring := [] } h2]
  simp only [seqS_ok]
  rw [stepDeployIfAbsent_skip fail sel .registryModule "1.5.0" (fun c => c.registryModule) setRegistryModule { st := st, next := next, delta := [], wiring := [] } h3]
  simp only [seqS_ok]
  rw [stepAddRegistryModule_skip { st := st, next := next, delta := [], wiring := [] } h4]
  simp only [seqS_ok]
  rw [stepDeployIfAbsent_skip fail sel .weth9 "1.0.0" (fun c => c.weth9) setWeth9 { st := st, next := next, delta := [], wiring := [] } h5]
  simp only [seqS_ok]
  rw [stepDeployIfAbsent_skip fail sel .linkToken "1.0.0" (fun c => c.linkToken) setLinkToken { st := st, next := next, delta := [], wiring := [] } h6]
  simp only [seqS_ok]
  rw [stepDeployIfAbsent_skip fail sel .router "1.2.0" (fun c => c.router) setRouter { st := st, next := next, delta := [], wiring := [] } h7]
  simp only [seqS_ok]
  rw [stepMulticall3_noop fail (resolveOpts opts).multicall3Enabled sel { st := st, next := next, delta := [], wiring := [] } h8]
  simp only [seqS_ok]
  rw [stepUSDC_noop fail (decide (sel ∈ (resolveOpts opts).usdcEnabledChains)) sel { st := st, next := next, delta := [], wiring := [] } (fun hu => h9 (of_decide_eq_true hu))]

/-- `addCallers` on a two-element list is two insertions. -/
theorem addCallers_pair (callers : List Nat) (x y : Nat) :
    addCallers callers [x, y] = addCaller (addCaller callers x) y := rfl

/-- Adding two already-present callers is a no-op. -/
theorem addCallers_pair_mem (callers : List Nat) (x y : Nat)
    (hx : x ∈ callers) (hy : y ∈ callers) :
    addCallers callers [x, y] = callers := by
  rw [addCallers_pair, addCaller_mem callers x hx, addCaller_mem callers y hy]

/-- The SetConfig wiring step always succeeds, records the digest, touches
only the digest field, keeps the delta, and logs its wiring action. -/
theorem stepSetRMNRemoteConfig_run (digest : Nat) (s : RunS) :
    ∃ s', stepSetRMNRemoteConfig digest s = (s', none)
      ∧ s'.st.rmnRemoteDigest = some digest
      ∧ (∀ {α : Type} (g : ChainState → α),
          (∀ c, g (setRMNRemoteDigest c digest) = g c) →
          g s'.st = g s.st)
      ∧ s'.delta = s.delta
      ∧ s'.wiring = s.wiring ++ [.setRMNRemoteConfig digest] := by
  refine ⟨(stepSetRMNRemoteConfig digest s).1, rfl, rfl, ?_, rfl, rfl⟩
  intro α g hg
  exact hg s.st

/-- The fee-quoter authorized-caller wiring step always succeeds, inserts
the OffRamp and deployer key, touches only that caller set, keeps the
delta, and logs its wiring action. -/
theorem stepFeeQuoterAuth_run (dk : Nat) (s : RunS) :
    ∃ s', stepFeeQuoterAuth dk s = (s', none)
      ∧ s'.st.feeQuoterCallers
          = addCallers s.st.feeQuoterCallers [s.st.offRamp.getD 0, dk]
      ∧ (∀ {α : Type} (g : ChainState → α),
          (∀ c l, g (setFeeQuoterCallers c l) = g c) →
          g s'.st = g s.st)
      ∧ s'.delta = s.delta
      ∧ s'.wiring
          = s.wiring ++ [.feeQuoterAuthUpdate [s.st.offRamp.getD 0, dk]] := by
  refine ⟨(stepFeeQuoterAuth dk s).1, rfl, rfl, ?_, rfl, rfl⟩
  intro α g hg
  exact hg s.st _

/-- The nonce-manager authorized-caller wiring step always succeeds,
inserts the OffRamp and OnRamp, touches only that caller set, keeps the
delta, and logs its wiring action. -/
theorem stepNonceManagerAuth_run (s : RunS) :
    ∃ s', stepNonceManagerAuth s = (s', none)
      ∧ s'.st.nonceManagerCallers
          = addCallers s.st.nonceManagerCallers
              [s.st.offRamp.getD 0, s.st.onRamp.getD 0]
      ∧ (∀ {α : Type} (g : ChainState → α),
          (∀ c l, g (setNonceManagerCallers c l) = g c) →
          g s'.st = g s.st)
      ∧ s'.delta = s.delta
      ∧ s'.wiring
          = s.wiring ++ [.nonceManagerAuthUpdate
              [s.st.offRamp.getD 0, s.st.onRamp.getD 0]] := by
  refine ⟨(stepNonceManagerAuth s).1, rfl, rfl, ?_, rfl, rfl⟩
  intro α g hg
  exact hg s.st _


/-- Unfolding of `ccStep1`. -/
theorem ccStep1_unfold (fail : FailPlan) (sel digest dk : Nat) (s : RunS) :
    ccStep1 fail sel digest dk s
      = seqS (stepDeployIfAbsent fail sel .ccipReceiver "1.0.0"
          (fun c => c.receiver) setReceiver s)
          (ccStep2 fail sel digest dk) := rfl

/-- Unfolding of `ccStep2`. -/
theorem ccStep2_unfold (fail : FailPlan) (sel digest dk : Nat) (s : RunS) :
    ccStep2 fail sel digest dk s
      = seqS (stepDeployIfAbsent fail sel .rmnRemote "1.6.0-dev"
          (fun c => c.rmnRemote) setRMNRemote s)
          (ccStep3 fail sel digest dk) := rfl

/-- Unfolding of `ccStep3`. -/
theorem ccStep3_unfold (fail : FailPlan) (sel digest dk : Nat) (s : RunS) :
    ccStep3 fail sel digest dk s
      = seqS (stepSetRMNRemoteConfig digest s) (ccStep4 fail sel dk) := rfl

/-- Unfolding of `ccStep4`. -/
theorem ccStep4_unfold (fail : FailPlan) (sel dk : Nat) (s : RunS) :
    ccStep4 fail sel dk s
      = seqS (stepDeployIfAbsent fail sel .armProxy "1.6.0-dev"
          (fun c => c.rmnProxyNew) setRMNProxyNew s)
          (ccStep5 fail sel dk) := rfl

/-- Unfolding of `ccStep5`. -/
theorem ccStep5_unfold (fail : FailPlan) (sel dk : Nat) (s : RunS) :
    ccStep5 fail sel dk s
      = seqS (stepDeployIfAbsent fail sel .testRouter "1.2.0"
          (fun c => c.testRouter) setTestRouter s)
          (ccStep6 fail sel dk) := rfl

/-- Unfolding of `ccStep6`. -/
theorem ccStep6_unfold (fail : FailPlan) (sel dk : Nat) (s : RunS) :
    ccStep6 fail sel dk s
      = seqS (stepDeployIfAbsent fail sel .nonceManager "1.6.0-dev"
          (fun c => c.nonceManager) setNonceManager s)
          (ccStep7 fail sel dk) := rfl

/-- Unfolding of `ccStep7`. -/
theorem ccStep7_unfold (fail : FailPlan) (sel dk : Nat) (s : RunS) :
    ccStep7 fail sel dk s
      = seqS (stepDeployIfAbsent fail sel .feeQuoter "1.6.0-dev"
          (fun c => c.feeQuoter) setFeeQuoter s)
          (ccStep8 fail sel dk) := rfl

/-- Unfolding of `ccStep8`. -/
theorem ccStep8_unfold (fail : FailPlan) (sel dk : Nat) (s : RunS) :
    ccStep8 fail sel dk s
      = seqS (stepDeployIfAbsent fail sel .onRamp "1.6.0-dev"
          (fun c => c.onRamp) setOnRamp s)
          (ccStep9 fail sel dk) := rfl

/-- Unfolding of `ccStep9`. -/
theorem ccStep9_unfold (fail : FailPlan) (sel dk : Nat) (s : RunS) :
    ccStep9 fail sel dk s
      = seqS (stepDeployIfAbsent fail sel .offRamp "1.6.0-dev"
          (fun c => c.offRamp) setOffRamp s)
          (ccStep10 dk) := rfl

/-- Unfolding of `ccStep10`. -/
theorem ccStep10_unfold (dk : Nat) (s : RunS) :
    ccStep10 dk s = seqS (stepFeeQuoterAuth dk s) ccStep11 := rfl

/-- Unfolding of `ccStep11`. -/
theorem ccStep11_unfold (s : RunS) :
    ccStep11 s = stepNonceManagerAuth s := rfl

/-- A `deployChainContracts` run on a gated-ready chain with no injected
failures on its chain succeeds, establishes all chain-contract records and
wiring, tags every delta record with its own selector, and issues exactly
the three wiring actions in order. -/
theorem deployChainContracts_run (fail : FailPlan) (sel : Nat)
    (st : ChainState) (digest dk next : Nat) (hready : ChainReady st)
    (hfa : ∀ k, fail sel k = false) :
    ∃ s', deployChainContracts fail sel (some st) digest dk next = (s', none)
      ∧ ChainDone digest dk s'.st
      ∧ (∀ r ∈ s'.delta, r.selector = sel)
      ∧ ∃ oa ona, s'.st.offRamp = some oa ∧ s'.st.onRamp = some ona
          ∧ s'.wiring = [.setRMNRemoteConfig digest,
              .feeQuoterAuthUpdate [oa, dk],
              .nonceManagerAuthUpdate [oa, ona]] := by
  obtain ⟨hw9, htl, hlk, htar, hrm, hrt⟩ := hready
  obtain ⟨s1, e1, p1, fr1, ⟨ext1, hd1, hsel1⟩, w1⟩ :=
    stepDeployIfAbsent_run fail sel .ccipReceiver "1.0.0"
      (fun c => c.receiver) setReceiver
      { st := st, next := next, delta := [], wiring := [] } (hfa _)
      (fun c a => rfl)
  obtain ⟨s2, e2, p2, fr2, ⟨ext2, hd2, hsel2⟩, w2⟩ :=
    stepDeployIfAbsent_run fail sel .rmnRemote "1.6.0-dev"
      (fun c => c.rmnRemote) setRMNRemote s1 (hfa _) (fun c a => rfl)
  obtain ⟨s3, e3, hd3, fr3, hd3', w3⟩ := stepSetRMNRemoteConfig_run digest s2
  obtain ⟨s4, e4, p4, fr4, ⟨ext4, hd4, hsel4⟩, w4⟩ :=
    stepDeployIfAbsent_run fail sel .armProxy "1.6.0-dev"
      (fun c => c.rmnProxyNew) setRMNProxyNew s3 (hfa _) (fun c a => rfl)
  obtain ⟨s5, e5, p5, fr5, ⟨ext5, hd5, hsel5⟩, w5⟩ :=
    stepDeployIfAbsent_run fail sel .testRouter "1.2.0"
      (fun c => c.testRouter) setTestRouter s4 (hfa _) (fun c a => rfl)
  obtain ⟨s6, e6, p6, fr6, ⟨ext6, hd6, hsel6⟩, w6⟩ :=
    stepDeployIfAbsent_run fail sel .nonceManager "1.6.0-dev"
      (fun c => c.nonceManager) setNonceManager s5 (hfa _) (fun c a => rfl)
  obtain ⟨s7, e7, p7, fr7, ⟨ext7, hd7, hsel7⟩, w7⟩ :=
    stepDeployIfAbsent_run fail sel .feeQuoter "1.6.0-dev"
      (fun c => c.feeQuoter) setFeeQuoter s6 (hfa _) (fun c a => rfl)
  obtain ⟨s8, e8, p8, fr8, ⟨ext8, hd8, hsel8⟩, w8⟩ :=
    stepDeployIfAbsent_run fail sel .onRamp "1.6.0-dev"
      (fun c => c.onRamp) setOnRamp s7 (hfa _) (fun c a => rfl)
  obtain ⟨s9, e9, p9, fr9, ⟨ext9, hd9, hsel9⟩, w9⟩ :=
    stepDeployIfAbsent_run fail sel .offRamp "1.6.0-dev"
      (fun c => c.offRamp) setOffRamp s8 (hfa _) (fun c a => rfl)
  obtain ⟨s10, e10, p10, fr10, hd10, w10⟩ := stepFeeQuoterAuth_run dk s9
  obtain ⟨s11, e11, p11, fr11, hd11, w11⟩ := stepNonceManagerAuth_run s10
  obtain ⟨oa, hoa⟩ := Option.isSome_iff_exists.mp p9
  obtain ⟨ona, hona⟩ := Option.isSome_iff_exists.mp p8
  obtain ⟨vw, hvw⟩ := Option.isSome_iff_exists.mp hw9
  obtain ⟨vtl, hvtl⟩ := Option.isSome_iff_exists.mp htl
  obtain ⟨vlk, hvlk⟩ := Option.isSome_iff_exists.mp hlk
  obtain ⟨vtar, hvtar⟩ := Option.isSome_iff_exists.mp htar
  obtain ⟨vrm, hvrm⟩ := Option.isSome_iff_exists.mp hrm
  obtain ⟨vrt, hvrt⟩ := Option.isSome_iff_exists.mp hrt
  have Ew : s11.st.weth9 = st.weth9 :=
    (((((((((((fr11 (fun c => c.weth9) (fun c l => rfl))).trans (fr10 (fun c => c.weth9) (fun c l => rfl))).trans (fr9 (fun c => c.weth9) (fun c a => rfl))).trans (fr8 (fun c => c.weth9) (fun c a => rfl))).trans (fr7 (fun c => c.weth9) (fun c a => rfl))).trans (fr6 (fun c => c.weth9) (fun c a => rfl))).trans (fr5 (fun c => c.weth9) (fun c a => rfl))).trans (fr4 (fun c => c.weth9) (fun c a => rfl))).trans (fr3 (fun c => c.weth9) (fun c => rfl))).trans (fr2 (fun c => c.weth9) (fun c a => rfl))).trans (fr1 (fun c => c.weth9) (fun c a => rfl))
  have Etl : s11.st.timelock = st.timelock :=
    (((((((((((fr11 (fun c => c.timelock) (fun c l => rfl))).trans (fr10 (fun c => c.timelock) (fun c l => rfl))).trans (fr9 (fun c => c.timelock) (fun c a => rfl))).trans (fr8 (fun c => c.timelock) (fun c a => rfl))).trans (fr7 (fun c => c.timelock) (fun c a => rfl))).trans (fr6 (fun c => c.timelock) (fun c a => rfl))).trans (fr5 (fun c => c.timelock) (fun c a => rfl))).trans (fr4 (fun c => c.timelock) (fun c a => rfl))).trans (fr3 (fun c => c.timelock) (fun c => rfl))).trans (fr2 (fun c => c.timelock) (fun c a => rfl))).trans (fr1 (fun c => c.timelock) (fun c a => rfl))
  have Elk : s11.st.linkToken = st.linkToken :=
    (((((((((((fr11 (fun c => c.linkToken) (fun c l => rfl))).trans (fr10 (fun c => c.linkToken) (fun c l => rfl))).trans (fr9 (fun c => c.linkToken) (fun c a => rfl))).trans (fr8 (fun c => c.linkToken) (fun c a => rfl))).trans (fr7 (fun c => c.linkToken) (fun c a => rfl))).trans (fr6 (fun c => c.linkToken) (fun c a => rfl))).trans (fr5 (fun c => c.linkToken) (fun c a => rfl))).trans (fr4 (fun c => c.linkToken) (fun c a => rfl))).trans (fr3 (fun c => c.linkToken) (fun c => rfl))).trans (fr2 (fun c => c.linkToken) (fun c a => rfl))).trans (fr1 (fun c => c.linkToken) (fun c a => rfl))
  have Etar : s11.st.tokenAdminRegistry = st.tokenAdminRegistry :=
    (((((((((((fr11 (fun c => c.tokenAdminRegistry) (fun c l => rfl))).trans (fr10 (fun c => c.tokenAdminRegistry) (fun c l => rfl))).trans (fr9 (fun c => c.tokenAdminRegistry) (fun c a => rfl))).trans (fr8 (fun c => c.tokenAdminRegistry) (fun c a => rfl))).trans (fr7 (fun c => c.tokenAdminRegistry) (fun c a => rfl))).trans (fr6 (fun c => c.tokenAdminRegistry) (fun c a => rfl))).trans (fr5 (fun c => c.tokenAdminRegistry) (fun c a => rfl))).trans (fr4 (fun c => c.tokenAdminRegistry) (fun c a => rfl))).trans (fr3 (fun c => c.tokenAdminRegistry) (fun c => rfl))).trans (fr2 (fun c => c.tokenAdminRegistry) (fun c a => rfl))).trans (fr1 (fun c => c.tokenAdminRegistry) (fun c a => rfl))
  have Erm : s11.st.registryModule = st.registryModule :=
    (((((((((((fr11 (fun c => c.registryModule) (fun c l => rfl))).trans (fr10 (fun c => c.registryModule) (fun c l => rfl))).trans (fr9 (fun c => c.registryModule) (fun c a => rfl))).trans (fr8 (fun c => c.registryModule) (fun c a => rfl))).trans (fr7 (fun c => c.registryModule) (fun c a => rfl))).trans (fr6 (fun c => c.registryModule) (fun c a => rfl))).trans (fr5 (fun c => c.registryModule) (fun c a => rfl))).trans (fr4 (fun c => c.registryModule) (fun c a => rfl))).trans (fr3 (fun c => c.registryModule) (fun c => rfl))).trans (fr2 (fun c => c.registryModule) (fun c a => rfl))).trans (fr1 (fun c => c.registryModule) (fun c a => rfl))
  have Ert : s11.st.router = st.router :=
    (((((((((((fr11 (fun c => c.router) (fun c l => rfl))).trans (fr10 (fun c => c.router) (fun c l => rfl))).trans (fr9 (fun c => c.router) (fun c a => rfl))).trans (fr8 (fun c => c.router) (fun c a => rfl))).trans (fr7 (fun c => c.router) (fun c a => rfl))).trans (fr6 (fun c => c.router) (fun c a => rfl))).trans (fr5 (fun c => c.router) (fun c a => rfl))).trans (fr4 (fun c => c.router) (fun c a => rfl))).trans (fr3 (fun c => c.router) (fun c => rfl))).trans (fr2 (fun c => c.router) (fun c a => rfl))).trans (fr1 (fun c => c.router) (fun c a => rfl))
  have Ercv : s11.st.receiver = s1.st.receiver :=
    ((((((((((fr11 (fun c => c.receiver) (fun c l => rfl))).trans (fr10 (fun c => c.receiver) (fun c l => rfl))).trans (fr9 (fun c => c.receiver) (fun c a => rfl))).trans (fr8 (fun c => c.receiver) (fun c a => rfl))).trans (fr7 (fun c => c.receiver) (fun c a => rfl))).trans (fr6 (fun c => c.receiver) (fun c a => rfl))).trans (fr5 (fun c => c.receiver) (fun c a => rfl))).trans (fr4 (fun c => c.receiver) (fun c a => rfl))).trans (fr3 (fun c => c.receiver) (fun c => rfl))).trans (fr2 (fun c => c.receiver) (fun c a => rfl))
  have Ernm : s11.st.rmnRemote = s2.st.rmnRemote :=
    (((((((((fr11 (fun c => c.rmnRemote) (fun c l => rfl))).trans (fr10 (fun c => c.rmnRemote) (fun c l => rfl))).trans (fr9 (fun c => c.rmnRemote) (fun c a => rfl))).trans (fr8 (fun c => c.rmnRemote) (fun c a => rfl))).trans (fr7 (fun c => c.rmnRemote) (fun c a => rfl))).trans (fr6 (fun c => c.rmnRemote) (fun c a => rfl))).trans (fr5 (fun c => c.rmnRemote) (fun c a => rfl))).trans (fr4 (fun c => c.rmnRemote) (fun c a => rfl))).trans (fr3 (fun c => c.rmnRemote) (fun c => rfl))
  have Edg : s11.st.rmnRemoteDigest = s3.st.rmnRemoteDigest :=
    ((((((((fr11 (fun c => c.rmnRemoteDigest) (fun c l => rfl))).trans (fr10 (fun c => c.rmnRemoteDigest) (fun c l => rfl))).trans (fr9 (fun c => c.rmnRemoteDigest) (fun c a => rfl))).trans (fr8 (fun c => c.rmnRemoteDigest) (fun c a => rfl))).trans (fr7 (fun c => c.rmnRemoteDigest) (fun c a => rfl))).trans (fr6 (fun c => c.rmnRemoteDigest) (fun c a => rfl))).trans (fr5 (fun c => c.rmnRemoteDigest) (fun c a => rfl))).trans (fr4 (fun c => c.rmnRemoteDigest) (fun c a => rfl))
  have Epx : s11.st.rmnProxyNew = s4.st.rmnProxyNew :=
    (((((((fr11 (fun c => c.rmnProxyNew) (fun c l => rfl))).trans (fr10 (fun c => c.rmnProxyNew) (fun c l => rfl))).trans (fr9 (fun c => c.rmnProxyNew) (fun c a => rfl))).trans (fr8 (fun c => c.rmnProxyNew) (fun c a => rfl))).trans (fr7 (fun c => c.rmnProxyNew) (fun c a => rfl))).trans (fr6 (fun c => c.rmnProxyNew) (fun c a => rfl))).trans (fr5 (fun c => c.rmnProxyNew) (fun c a => rfl))
  have Etr : s11.st.testRouter = s5.st.testRouter :=
    ((((((fr11 (fun c => c.testRouter) (fun c l => rfl))).trans (fr10 (fun c => c.testRouter) (fun c l => rfl))).trans (fr9 (fun c => c.testRouter) (fun c a => rfl))).trans (fr8 (fun c => c.testRouter) (fun c a => rfl))).trans (fr7 (fun c => c.testRouter) (fun c a => rfl))).trans (fr6 (fun c => c.testRouter) (fun c a => rfl))
  have Enm : s11.st.nonceManager = s6.st.nonceManager :=
    (((((fr11 (fun c => c.nonceManager) (fun c l => rfl))).trans (fr10 (fun c => c.nonceManager) (fun c l => rfl))).trans (fr9 (fun c => c.nonceManager) (fun c a => rfl))).trans (fr8 (fun c => c.nonceManager) (fun c a => rfl))).trans (fr7 (fun c => c.nonceManager) (fun c a => rfl))
  have Efq : s11.st.feeQuoter = s7.st.feeQuoter :=
    ((((fr11 (fun c => c.feeQuoter) (fun c l => rfl))).trans (fr10 (fun c => c.feeQuoter) (fun c l => rfl))).trans (fr9 (fun c => c.feeQuoter) (fun c a => rfl))).trans (fr8 (fun c => c.feeQuoter) (fun c a => rfl))
  have Eon : s11.st.onRamp = s8.st.onRamp :=
    (((fr11 (fun c => c.onRamp) (fun c l => rfl))).trans (fr10 (fun c => c.onRamp) (fun c l => rfl))).trans (fr9 (fun c => c.onRamp) (fun c a => rfl))
  have Eoff : s11.st.offRamp = s9.st.offRamp :=
    ((fr11 (fun c => c.offRamp) (fun c l => rfl))).trans (fr10 (fun c => c.offRamp) (fun c l => rfl))
  have E10off : s10.st.offRamp = s9.st.offRamp :=
    (fr10 (fun c => c.offRamp) (fun c l => rfl))
  have E10on : s10.st.onRamp = s8.st.onRamp :=
    ((fr10 (fun c => c.onRamp) (fun c l => rfl))).trans (fr9 (fun c => c.onRamp) (fun c a => rfl))
  have Efqc : s11.st.feeQuoterCallers = s10.st.feeQuoterCallers :=
    (fr11 (fun c => c.feeQuoterCallers) (fun c l => rfl))
  have hfqc : s11.st.feeQuoterCallers
      = addCaller (addCaller s9.st.feeQuoterCallers oa) dk := by
    rw [Efqc, p10, hoa]
    rfl
  have hnmc : s11.st.nonceManagerCallers
      = addCaller (addCaller s10.st.nonceManagerCallers oa) ona := by
    rw [p11, E10off, hoa, E10on, hona]
    rfl
  refine ⟨s11, ?_, ⟨⟨?_, ?_, ?_, ?_, ?_, ?_⟩, ?_, ?_, ?_, ?_, ?_, ?_, ?_, ?_, ?_, ?_⟩, ?_, ?_⟩
  · simp only [deployChainContracts]
    rw [if_neg (by simp [hvw]), if_neg (by simp [hvtl]),
        if_neg (by simp [hvlk]), if_neg (by simp [hvtar]),
        if_neg (by simp [hvrm]), if_neg (by simp [hvrt])]
    rw [ccStep1_unfold, e1, seqS_ok, ccStep2_unfold, e2, seqS_ok,
        ccStep3_unfold, e3, seqS_ok, ccStep4_unfold, e4, seqS_ok,
        ccStep5_unfold, e5, seqS_ok, ccStep6_unfold, e6, seqS_ok,
        ccStep7_unfold, e7, seqS_ok, ccStep8_unfold, e8, seqS_ok,
        ccStep9_unfold, e9, seqS_ok, ccStep10_unfold, e10, seqS_ok,
        ccStep11_unfold, e11]
  · rw [Ew]; exact hw9 ▸ rfl
  · rw [Etl]; exact htl ▸ rfl
  · rw [Elk]; exact hlk ▸ rfl
  · rw [Etar]; exact htar ▸ rfl
  · rw [Erm]; exact hrm ▸ rfl
  · rw [Ert]; exact hrt ▸ rfl
  · rw [Ercv]; exact p1
  · rw [Ernm]; exact p2
  · rw [Epx]; exact p4
  · rw [Etr]; exact p5
  · rw [Enm]; exact p6
  · rw [Efq]; exact p7
  · refine ⟨oa, by rw [Eoff]; exact hoa, ?_, ?_⟩
    · rw [hfqc]
      exact mem_addCaller_of_mem _ dk oa (mem_addCaller_self _ oa)
    · rw [hnmc]
      exact mem_addCaller_of_mem _ ona oa (mem_addCaller_self _ oa)
  · refine ⟨ona, by rw [Eon]; exact hona, ?_⟩
    rw [hnmc]
    exact mem_addCaller_self _ ona
  · rw [hfqc]
    exact mem_addCaller_self _ dk
  · rw [Edg]; exact hd3
  · have Hsel1 : ∀ r ∈ s1.delta, r.selector = sel := by
      intro r hr
      rw [hd1] at hr
      rcases List.mem_append.mp hr with h | h
      · simp at h
      · exact hsel1 r h
    have Hsel2 : ∀ r ∈ s2.delta, r.selector = sel := by
      intro r hr
      rw [hd2] at hr
      rcases List.mem_append.mp hr with h | h
      · exact Hsel1 r h
      · exact hsel2 r h
    have Hsel3 : ∀ r ∈ s3.delta, r.selector = sel := by
      intro r hr
      rw [hd3'] at hr
      exact Hsel2 r hr
    have Hsel4 : ∀ r ∈ s4.delta, r.selector = sel := by
      intro r hr
      rw [hd4] at hr
      rcases List.mem_append.mp hr with h | h
      · exact Hsel3 r h
      · exact hsel4 r h
    have Hsel5 : ∀ r ∈ s5.delta, r.selector = sel := by
      intro r hr
      rw [hd5] at hr
      rcases List.mem_append.mp hr with h | h
      · exact Hsel4 r h
      · exact hsel5 r h
    have Hsel6 : ∀ r ∈ s6.delta, r.selector = sel := by
      intro r hr
      rw [hd6] at hr
      rcases List.mem_append.mp hr with h | h
      · exact Hsel5 r h
      · exact hsel6 r h
    have Hsel7 : ∀ r ∈ s7.delta, r.selector = sel := by
      intro r hr
      rw [hd7] at hr
      rcases List.mem_append.mp hr with h | h
      · exact Hsel6 r h
      · exact hsel7 r h
    have Hsel8 : ∀ r ∈ s8.delta, r.selector = sel := by
      intro r hr
      rw [hd8] at hr
      rcases List.mem_append.mp hr with h | h
      · exact Hsel7 r h
      · exact hsel8 r h
    have Hsel9 : ∀ r ∈ s9.delta, r.selector = sel := by
      intro r hr
      rw [hd9] at hr
      rcases List.mem_append.mp hr with h | h
      · exact Hsel8 r h
      · exact hsel9 r h
    intro r hr
    rw [hd11, hd10] at hr
    exact Hsel9 r hr
  · refine ⟨oa, ona, by rw [Eoff]; exact hoa, by rw [Eon]; exact hona, ?_⟩
    rw [w11, E10off, hoa, E10on, hona, w10, hoa, w9, w8, w7, w6, w5, w4, w3,
        w2, w1]
    rfl

/-- The SetConfig wiring step rewrites an already-configured digest:
the chain state is unchanged; only the wiring log grows. -/
theorem stepSetRMNRemoteConfig_noop (digest : Nat) (s : RunS)
    (h : s.st.rmnRemoteDigest = some digest) :
    ∃ s', stepSetRMNRemoteConfig digest s = (s', none)
      ∧ s'.st = s.st ∧ s'.next = s.next ∧ s'.delta = s.delta
      ∧ s'.wiring = s.wiring ++ [.setRMNRemoteConfig digest] := by
  refine ⟨(stepSetRMNRemoteConfig digest s).1, rfl, ?_, rfl, rfl, rfl⟩
  show setRMNRemoteDigest s.st digest = s.st
  rw [setRMNRemoteDigest, ← h]

/-- The fee-quoter wiring step re-adds already-authorized callers: the
chain state is unchanged; only the wiring log grows. -/
theorem stepFeeQuoterAuth_noop (dk : Nat) (s : RunS) (oa : Nat)
    (hoa : s.st.offRamp = some oa) (h1 : oa ∈ s.st.feeQuoterCallers)
    (h2 : dk ∈ s.st.feeQuoterCallers) :
    ∃ s', stepFeeQuoterAuth dk s = (s', none)
      ∧ s'.st = s.st ∧ s'.next = s.next ∧ s'.delta = s.delta
      ∧ s'.wiring = s.wiring ++ [.feeQuoterAuthUpdate [oa, dk]] := by
  refine ⟨(stepFeeQuoterAuth dk s).1, rfl, ?_, rfl, rfl, ?_⟩
  · show setFeeQuoterCallers s.st
        (addCallers s.st.feeQuoterCallers [s.st.offRamp.getD 0, dk]) = s.st
    rw [hoa, Option.getD_some, addCallers_pair_mem _ _ _ h1 h2,
      setFeeQuoterCallers]
  · show s.wiring ++ [.feeQuoterAuthUpdate [s.st.offRamp.getD 0, dk]]
        = s.wiring ++ [.feeQuoterAuthUpdate [oa, dk]]
    rw [hoa, Option.getD_some]

/-- The nonce-manager wiring step re-adds already-authorized callers: the
chain state is unchanged; only the wiring log grows. -/
theorem stepNonceManagerAuth_noop (s : RunS) (oa ona : Nat)
    (hoa : s.st.offRamp = some oa) (hona : s.st.onRamp = some ona)
    (h1 : oa ∈ s.st.nonceManagerCallers)
    (h2 : ona ∈ s.st.nonceManagerCallers) :
    ∃ s', stepNonceManagerAuth s = (s', none)
      ∧ s'.st = s.st ∧ s'.next = s.next ∧ s'.delta = s.delta
      ∧ s'.wiring = s.wiring ++ [.nonceManagerAuthUpdate [oa, ona]] := by
  refine ⟨(stepNonceManagerAuth s).1, rfl, ?_, rfl, rfl, ?_⟩
  · show setNonceManagerCallers s.st
        (addCallers s.st.nonceManagerCallers
          [s.st.offRamp.getD 0, s.st.onRamp.getD 0]) = s.st
    rw [hoa, hona, Option.getD_some, Option.getD_some,
      addCallers_pair_mem _ _ _ h1 h2, setNonceManagerCallers]
  · show s.wiring ++ [.nonceManagerAuthUpdate
        [s.st.offRamp.getD 0, s.st.onRamp.getD 0]]
        = s.wiring ++ [.nonceManagerAuthUpdate [oa, ona]]
    rw [hoa, hona, Option.getD_some, Option.getD_some]

/-- Skip-if-exists for `deployChainContracts`: a run against a chain whose
records and wiring are all in place performs no deployment under any
failure plan — the returned state and allocator are unchanged, the delta is
empty and no error is returned — while the three wiring transactions are
issued again. -/
theorem deployChainContracts_noop (fail : FailPlan) (sel : Nat)
    (st : ChainState) (digest dk next : Nat)
    (hdone : ChainDone digest dk st) :
    ∃ oa ona s', st.offRamp = some oa ∧ st.onRamp = some ona
      ∧ deployChainContracts fail sel (some st) digest dk next = (s', none)
      ∧ s'.st = st ∧ s'.next = next ∧ s'.delta = []
      ∧ s'.wiring = [.setRMNRemoteConfig digest,
          .feeQuoterAuthUpdate [oa, dk],
          .nonceManagerAuthUpdate [oa, ona]] := by
  obtain ⟨⟨hw9, htl, hlk, htar, hrm, hrt⟩, hrcv, hrr, hpx, htr, hnm, hfq,
    ⟨oa, hoa, hfqoa, hnmoa⟩, ⟨ona, hona, hnmona⟩, hfqdk, hdig⟩ := hdone
  obtain ⟨vw, hvw⟩ := Option.isSome_iff_exists.mp hw9
  obtain ⟨vtl, hvtl⟩ := Option.isSome_iff_exists.mp htl
  obtain ⟨vlk, hvlk⟩ := Option.isSome_iff_exists.mp hlk
  obtain ⟨vtar, hvtar⟩ := Option.isSome_iff_exists.mp htar
  obtain ⟨vrm, hvrm⟩ := Option.isSome_iff_exists.mp hrm
  obtain ⟨vrt, hvrt⟩ := Option.isSome_iff_exists.mp hrt
  have hoas : st.offRamp.isSome = true := by rw [hoa]; rfl
  have honas : st.onRamp.isSome = true := by rw [hona]; rfl
  obtain ⟨s3, e3, hst3, hnx3, hdl3, hw3⟩ :=
    stepSetRMNRemoteConfig_noop digest
      { st := st, next := next, delta := [], wiring := [] } hdig
  obtain ⟨s10, e10, hst10, hnx10, hdl10, hw10⟩ :=
    stepFeeQuoterAuth_noop dk s3 oa (by rw [hst3]; exact hoa)
      (by rw [hst3]; exact hfqoa) (by rw [hst3]; exact hfqdk)
  obtain ⟨s11, e11, hst11, hnx11, hdl11, hw11⟩ :=
    stepNonceManagerAuth_noop s10 oa ona
      (by rw [hst10, hst3]; exact hoa) (by rw [hst10, hst3]; exact hona)
      (by rw [hst10, hst3]; exact hnmoa) (by rw [hst10, hst3]; exact hnmona)
  refine ⟨oa, ona, s11, hoa, hona, ?_, ?_, ?_, ?_, ?_⟩
  · simp only [deployChainContracts]
    rw [if_neg (by simp [hvw]), if_neg (by simp [hvtl]),
        if_neg (by simp [hvlk]), if_neg (by simp [hvtar]),
        if_neg (by simp [hvrm]), if_neg (by simp [hvrt])]
    rw [ccStep1_unfold,
      stepDeployIfAbsent_skip fail sel .ccipReceiver "1.0.0"
        (fun c => c.receiver) setReceiver
        { st := st, next := next, delta := [], wiring := [] } hrcv,
      seqS_ok, ccStep2_unfold,
      stepDeployIfAbsent_skip fail sel .rmnRemote "1.6.0-dev"
        (fun c => c.rmnRemote) setRMNRemote
        { st := st, next := next, delta := [], wiring := [] } hrr,
      seqS_ok, ccStep3_unfold, e3, seqS_ok, ccStep4_unfold,
      stepDeployIfAbsent_skip fail sel .armProxy "1.6.0-dev"
        (fun c => c.rmnProxyNew) setRMNProxyNew s3
        (by rw [hst3]; exact hpx),
      seqS_ok, ccStep5_unfold,
      stepDeployIfAbsent_skip fail sel .testRouter "1.2.0"
        (fun c => c.testRouter) setTestRouter s3
        (by rw [hst3]; exact htr),
      seqS_ok, ccStep6_unfold,
      stepDeployIfAbsent_skip fail sel .nonceManager "1.6.0-dev"
        (fun c => c.nonceManager) setNonceManager s3
        (by rw [hst3]; exact hnm),
      seqS_ok, ccStep7_unfold,
      stepDeployIfAbsent_skip fail sel .feeQuoter "1.6.0-dev"
        (fun c => c.feeQuoter) setFeeQuoter s3
        (by rw [hst3]; exact hfq),
      seqS_ok, ccStep8_unfold,
      stepDeployIfAbsent_skip fail sel .onRamp "1.6.0-dev"
        (fun c => c.onRamp) setOnRamp s3
        (by rw [hst3]; exact honas),
      seqS_ok, ccStep9_unfold,
      stepDeployIfAbsent_skip fail sel .offRamp "1.6.0-dev"
        (fun c => c.offRamp) setOffRamp s3
        (by rw [hst3]; exact hoas),
      seqS_ok, ccStep10_unfold, e10, seqS_ok, ccStep11_unfold, e11]
  · rw [hst11, hst10, hst3]
  · rw [hnx11, hnx10, hnx3]
  · rw [hdl11, hdl10, hdl3]
  · rw [hw11, hw10, hw3]
    rfl

/-- C2: the Per-Environment Deployer is idempotent. For the prerequisite
deployer: a run with no failures succeeds, and a second run from the
resulting state deploys nothing — empty delta, unchanged state, no error.
For the chain-contracts deployer: from any gated-ready state a no-failure
run succeeds, and a second run from the resulting state deploys nothing —
empty delta, unchanged state, no error (the always-run wiring rewrites the
same configuration, leaving the state identical). -/
theorem per_environment_deployer_idempotent (opts : List PrerequisiteOpt)
    (sel next : Nat) (chainSt : Option ChainState) :
    (∃ s1, deployPrerequisiteContracts noFail opts sel chainSt next
        = (s1, none)
      ∧ ∀ next2,
          deployPrerequisiteContracts noFail opts sel (some s1.st) next2
            = ({ st := s1.st, next := next2, delta := [], wiring := [] },
                none))
    ∧ ∀ st digest dk next2, ChainReady st →
        ∃ s1, deployChainContracts noFail sel (some st) digest dk next2
            = (s1, none)
          ∧ ∀ next3, ∃ s2,
              deployChainContracts noFail sel (some s1.st) digest dk next3
                = (s2, none)
              ∧ s2.st = s1.st ∧ s2.delta = [] ∧ s2.next = next3 := by
  constructor
  · obtain ⟨s1, e1, pd1, -, -, -⟩ :=
      deployPrerequisiteContracts_run noFail opts sel chainSt next
        (fun k => rfl)
    exact ⟨s1, e1, fun next2 =>
      deployPrerequisiteContracts_noop noFail opts sel s1.st next2 pd1⟩
  · intro st digest dk next2 hready
    obtain ⟨s1, e1, hdone1, -, -⟩ :=
      deployChainContracts_run noFail sel st digest dk next2 hready
        (fun k => rfl)
    refine ⟨s1, e1, fun next3 => ?_⟩
    obtain ⟨oa, ona, s2, -, -, e2, hst2, hnx2, hdl2, -⟩ :=
      deployChainContracts_noop noFail sel s1.st digest dk next3 hdone1
    exact ⟨s2, e2, hst2, hdl2, hnx2⟩

/-- C2 witness: the chain-contracts part at a concrete gated-ready state. -/
theorem per_environment_deployer_idempotent_witness :
    ∃ s1, deployChainContracts noFail 1 (some stReadyW) 9 3 100 = (s1, none)
      ∧ ∀ next3, ∃ s2,
          deployChainContracts noFail 1 (some s1.st) 9 3 next3 = (s2, none)
          ∧ s2.st = s1.st ∧ s2.delta = [] ∧ s2.next = next3 :=
  (per_environment_deployer_idempotent [] 1 0 none).2 stReadyW 9 3 100
    ⟨rfl, rfl, rfl, rfl, rfl, rfl⟩

/-- C10: `deployChainContracts` executes its wiring actions — SetConfig on
the RMNRemote to the active RMNHome digest, and the authorized-caller
updates on the fee quoter and the nonce manager — on every no-failure
invocation that passes the gating checks, in that order; in particular on a
fully deployed and wired chain the run deploys nothing (empty delta) yet
still issues all three wiring actions: they are not guarded by an
already-configured check. -/
theorem deployChainContracts_always_wires (sel : Nat) (st : ChainState)
    (digest dk next : Nat) (hready : ChainReady st) :
    (∃ s' oa ona,
        deployChainContracts noFail sel (some st) digest dk next = (s', none)
        ∧ s'.wiring = [.setRMNRemoteConfig digest,
            .feeQuoterAuthUpdate [oa, dk],
            .nonceManagerAuthUpdate [oa, ona]])
    ∧ ∀ stF, ChainDone digest dk stF →
        ∃ s' oa ona,
          deployChainContracts noFail sel (some stF) digest dk next
            = (s', none)
          ∧ s'.delta = []
          ∧ s'.wiring = [.setRMNRemoteConfig digest,
              .feeQuoterAuthUpdate [oa, dk],
              .nonceManagerAuthUpdate [oa, ona]] := by
  constructor
  · obtain ⟨s', e, -, -, ⟨oa, ona, -, -, hw⟩⟩ :=
      deployChainContracts_run noFail sel st digest dk next hready
        (fun k => rfl)
    exact ⟨s', oa, ona, e, hw⟩
  · intro stF hdone
    obtain ⟨oa, ona, s', -, -, e, -, -, hdl, hw⟩ :=
      deployChainContracts_noop noFail sel stF digest dk next hdone
    exact ⟨s', oa, ona, e, hdl, hw⟩

/-- C10 witness: a fully deployed and wired chain still gets all three
wiring actions, with no new deployment. -/
theorem deployChainContracts_always_wires_witness :
    ∃ s' oa ona,
      deployChainContracts noFail 1 (some stDoneW) 9 3 0 = (s', none)
      ∧ s'.delta = []
      ∧ s'.wiring = [.setRMNRemoteConfig 9, .feeQuoterAuthUpdate [oa, 3],
          .nonceManagerAuthUpdate [oa, ona]] :=
  (deployChainContracts_always_wires 1 stDoneW 9 3 0
      ⟨rfl, rfl, rfl, rfl, rfl, rfl⟩).2 stDoneW
    ⟨⟨rfl, rfl, rfl, rfl, rfl, rfl⟩, rfl, rfl, rfl, rfl, rfl, rfl,
      ⟨7, rfl, by decide, by decide⟩, ⟨8, rfl, by decide⟩, by decide, rfl⟩

/-- Fan-out over no chains. -/
theorem fanout_nil (fail : FailPlan) (opts : List PrerequisiteOpt)
    (next : Nat) :
    deployPrerequisiteChainContracts fail opts [] next = ([], none) := rfl

/-- One-step unfolding of the fan-out. -/
theorem fanout_cons (fail : FailPlan) (opts : List PrerequisiteOpt)
    (sel : Nat) (st : Option ChainState)
    (rest : List (Nat × Option ChainState)) (next : Nat) :
    deployPrerequisiteChainContracts fail opts ((sel, st) :: rest) next
      = ((sel, (deployPrerequisiteContracts fail opts sel st next).1)
            :: (deployPrerequisiteChainContracts fail opts rest next).1,
          match (deployPrerequisiteContracts fail opts sel st next).2 with
          | some e => some e
          | none =>
            (deployPrerequisiteChainContracts fail opts rest next).2) := rfl

/-- The fan-out runs one task per chain and keeps every task's result,
whatever the failure plan. -/
theorem fanout_results (fail : FailPlan) (opts : List PrerequisiteOpt)
    (chains : List (Nat × Option ChainState)) (next : Nat) :
    (deployPrerequisiteChainContracts fail opts chains next).1
      = chains.map (fun c =>
          (c.1, (deployPrerequisiteContracts fail opts c.1 c.2 next).1)) := by
  induction chains with
  | nil => rfl
  | cons c rest ih =>
    obtain ⟨sel, st⟩ := c
    rw [fanout_cons]
    simp [ih]

/-- The fan-out's aggregate error is the first per-task error in iteration
order (none iff every task succeeded). -/
theorem fanout_error (fail : FailPlan) (opts : List PrerequisiteOpt)
    (chains : List (Nat × Option ChainState)) (next : Nat) :
    (deployPrerequisiteChainContracts fail opts chains next).2
      = chains.findSome? (fun c =>
          (deployPrerequisiteContracts fail opts c.1 c.2 next).2) := by
  induction chains with
  | nil => rfl
  | cons c rest ih =>
    obtain ⟨sel, st⟩ := c
    rw [fanout_cons]
    cases h : (deployPrerequisiteContracts fail opts sel st next).2 with
    | some e => simp [List.findSome?_cons, h]
    | none => simp [List.findSome?_cons, h, ih]

/-- C8: the Parallel Fan-Out Coordinator starts one task per target
Environment and waits for all of them — every task's result, including its
partially persisted records, appears in the output regardless of sibling
failures — returns the first per-task error in iteration order (nil iff all
succeeded), and persists the joined per-task deltas; when the failure plan
only hits one selector, every other Environment's task still completes
without error. -/
theorem fanout_coordination (fail : FailPlan) (opts : List PrerequisiteOpt)
    (chains : List (Nat × Option ChainState)) (next selF : Nat)
    (honly : ∀ sel k, fail sel k = true → sel = selF) :
    (deployPrerequisiteChainContracts fail opts chains next).1
      = chains.map (fun c =>
          (c.1, (deployPrerequisiteContracts fail opts c.1 c.2 next).1))
    ∧ (deployPrerequisiteChainContracts fail opts chains next).2
      = chains.findSome? (fun c =>
          (deployPrerequisiteContracts fail opts c.1 c.2 next).2)
    ∧ fanOutDelta (deployPrerequisiteChainContracts fail opts chains next).1
      = chains.flatMap (fun c =>
          (deployPrerequisiteContracts fail opts c.1 c.2 next).1.delta)
    ∧ ∀ sel st, (sel, st) ∈ chains → sel ≠ selF →
        (deployPrerequisiteContracts fail opts sel st next).2 = none := by
  refine ⟨fanout_results fail opts chains next,
    fanout_error fail opts chains next, ?_, ?_⟩
  · rw [fanout_results]
    induction chains with
    | nil => rfl
    | cons c rest ih => simp [fanOutDelta] at ih ⊢; exact ih
  · intro sel st _ hne
    have hfa : ∀ k, fail sel k = false := by
      intro k
      cases hf : fail sel k
      · rfl
      · exact absurd (honly sel k hf) hne
    obtain ⟨s', e, -, -, -⟩ :=
      deployPrerequisiteContracts_run fail opts sel st next hfa
    rw [e]

/-- C8 witness: with a plan failing only chain 2, chain 1's task completes
without error. -/
theorem fanout_coordination_witness :
    (deployPrerequisiteContracts failW [] 1 none 0).2 = none := by
  have h := fanout_coordination failW [] [(1, none), (2, none)] 0 2
    (fun sel k hf => by
      simp only [failW, Bool.and_eq_true, decide_eq_true_eq] at hf
      exact hf.1)
  exact h.2.2.2 1 none (by decide) (by decide)

/-- C6: with one fully deployed Environment and one empty one, the fan-out
deploys only into the empty Environment (the deployed one gets an empty
delta and an unchanged state, every new record is tagged with the empty
Environment's selector), returns no error, and afterwards the Address Book
holds records for both Environments. -/
theorem fanout_two_environments (opts : List PrerequisiteOpt)
    (sel1 sel2 next : Nat) (st1 : ChainState) (ab0 : List ContractRecord)
    (hfull : PrereqDone (resolveOpts opts) sel1 st1)
    (hab : ∃ r ∈ ab0, r.selector = sel1) :
    ∃ s2, deployPrerequisiteChainContracts noFail opts
        [(sel1, some st1), (sel2, none)] next
      = ([(sel1, { st := st1, next := next, delta := [], wiring := [] }),
          (sel2, s2)], none)
      ∧ s2.delta ≠ [] ∧ (∀ r ∈ s2.delta, r.selector = sel2)
      ∧ PrereqDone (resolveOpts opts) sel2 s2.st
      ∧ (∃ r ∈ ab0 ++ s2.delta, r.selector = sel1)
      ∧ (∃ r ∈ ab0 ++ s2.delta, r.selector = sel2) := by
  obtain ⟨s2, e2, pd2, hsel2, -, hne2⟩ :=
    deployPrerequisiteContracts_run noFail opts sel2 none next (fun k => rfl)
  refine ⟨s2, ?_, hne2 rfl, hsel2, pd2, ?_, ?_⟩
  · rw [fanout_cons, fanout_cons, fanout_nil,
      deployPrerequisiteContracts_noop noFail opts sel1 st1 next hfull, e2]
  · obtain ⟨r, hr, hsel⟩ := hab
    exact ⟨r, List.mem_append.mpr (Or.inl hr), hsel⟩
  · obtain ⟨r, hr⟩ := List.exists_mem_of_ne_nil _ (hne2 rfl)
    exact ⟨r, List.mem_append.mpr (Or.inr hr), hsel2 r hr⟩

/-- C6 witness: concrete two-environment run. -/
theorem fanout_two_environments_witness :
    ∃ s2, deployPrerequisiteChainContracts noFail []
        [(1, some stPrereqW), (2, none)] 0
      = ([(1, { st := stPrereqW, next := 0, delta := [], wiring := [] }),
          (2, s2)], none)
      ∧ s2.delta ≠ [] ∧ (∀ r ∈ s2.delta, r.selector = 2)
      ∧ PrereqDone (resolveOpts []) 2 s2.st
      ∧ (∃ r ∈ abW ++ s2.delta, r.selector = 1)
      ∧ (∃ r ∈ abW ++ s2.delta, r.selector = 2) :=
  fanout_two_environments [] 1 2 0 stPrereqW abW
    ⟨rfl, rfl, rfl, rfl, rfl, rfl, rfl, fun h => absurd h (by decide),
      fun h => absurd h (by decide)⟩
    ⟨{ selector := 1, kind := .weth9, version := "1.0.0", address := 5 },
      by decide, rfl⟩

/-- The configuration loop over passing targets issues both Router calls
per target, in order, and succeeds. -/
theorem configureChainLoop_good (good : List (Nat × Option TargetChainView)) :
    ∀ calls, (∀ c ∈ good, goodTarget c = true) →
      configureChainLoop good calls = (none, calls ++ callsFor good) := by
  induction good with
  | nil =>
    intro calls _
    simp [configureChainLoop, callsFor]
  | cons c rest ih =>
    intro calls hg
    obtain ⟨sel, v⟩ := c
    cases v with
    | none =>
      have := hg (sel, none) (List.mem_cons_self _ _)
      simp [goodTarget] at this
    | some t =>
      have ht : t.offRamp.isSome = true :=
        hg (sel, some t) (List.mem_cons_self _ _)
      obtain ⟨a, ha⟩ := Option.isSome_iff_exists.mp ht
      simp only [configureChainLoop, ha]
      rw [ih (calls ++ [RouterCall.addChainConfig sel, RouterCall.addDON sel])
        (fun c hc => hg c (List.mem_cons_of_mem _ hc))]
      simp [callsFor]

/-- The configuration loop aborts at the first target with a missing record,
with that target's error message, keeping only the calls for the targets
strictly before it. -/
theorem configureChainLoop_bad (good : List (Nat × Option TargetChainView))
    (sel : Nat) (bad : Option TargetChainView)
    (rest : List (Nat × Option TargetChainView)) :
    ∀ calls, (∀ c ∈ good, goodTarget c = true) →
      goodTarget (sel, bad) = false →
      configureChainLoop (good ++ (sel, bad) :: rest) calls
        = (some (missingMsg sel bad), calls ++ callsFor good) := by
  induction good with
  | nil =>
    intro calls _ hbad
    cases bad with
    | none => simp [configureChainLoop, missingMsg, callsFor]
    | some t =>
      have ht : t.offRamp = none := by
        cases h : t.offRamp with
        | none => rfl
        | some a =>
          have hsf : t.offRamp.isSome = false := hbad
          rw [h] at hsf
          simp at hsf
      simp [configureChainLoop, ht, missingMsg, callsFor]
  | cons c rest' ih =>
    intro calls hg hbad
    obtain ⟨sel', v⟩ := c
    cases v with
    | none =>
      have := hg (sel', none) (List.mem_cons_self _ _)
      simp [goodTarget] at this
    | some t =>
      have ht : t.offRamp.isSome = true :=
        hg (sel', some t) (List.mem_cons_self _ _)
      obtain ⟨a, ha⟩ := Option.isSome_iff_exists.mp ht
      simp only [List.cons_append, configureChainLoop, ha, List.append_eq]
      rw [ih (calls ++ [RouterCall.addChainConfig sel', RouterCall.addDON sel'])
        (fun c hc => hg c (List.mem_cons_of_mem _ hc)) hbad]
      simp [callsFor]

/-- Unfolding of `configureChain` on non-empty OCR secrets, a successful
node read and a non-empty node set. -/
theorem configureChain_ok_unfold (nodes : List Nat) (home : HomeChainView)
    (targets : List (Nat × Option TargetChainView)) (hnodes : nodes ≠ []) :
    configureChain false (.ok nodes) home targets
      = match home.capabilityRegistry with
        | none => (some "capability registry not found", [])
        | some _ =>
          match home.ccipHome with
          | none => (some "ccip home not found", [])
          | some _ =>
            match home.rmnHome with
            | none => (some "rmn home not found", [])
            | some _ => configureChainLoop targets [] := by
  simp only [configureChain]
  rw [if_neg (by decide),
    if_neg (fun h => hnodes (List.length_eq_zero.mp h))]

/-- C7 counterexample: the claim fails on two counts. With the capability
registry record missing for a home chain with selector 12345, the error
names the record only — it does not mention the Environment. And when the
second target chain's OffRamp is missing while the first is complete,
`configureChain` has already issued both mutating Router calls for the
first chain before failing. -/
theorem configureChain_claim_false :
    configureChain false (.ok [5])
        { capabilityRegistry := none, ccipHome := some 1, rmnHome := some 2 }
        [(12345, some { offRamp := some 3 })]
      = (some "capability registry not found", [])
    ∧ mentions "capability registry not found" (toString 12345) = false
    ∧ configureChain false (.ok [5])
        { capabilityRegistry := some 1, ccipHome := some 2, rmnHome := some 3 }
        [(1, some { offRamp := some 10 }), (2, some { offRamp := none })]
      = (some "off ramp not found for chain 2",
          [.addChainConfig 1, .addDON 1]) :=
  ⟨rfl, by decide, rfl⟩

/-- C7 (amended): with valid OCR secrets and a non-empty node set, the
Configuration Step fails fast on the first missing required record with an
error naming that record; for per-target-chain records (the chain's state
or its OffRamp) the message also names the chain's selector, while the
home-chain record errors (capability registry, CCIPHome, RMNHome) name only
the record; no mutating Router call is issued when a home-chain record is
missing, and when a target chain's record is missing no call is issued for
that chain or any later one — only the strictly earlier, complete targets
have been configured. -/
theorem configureChain_gating (nodes : List Nat) (home : HomeChainView)
    (targets : List (Nat × Option TargetChainView)) (hnodes : nodes ≠ []) :
    (home.capabilityRegistry = none →
      configureChain false (.ok nodes) home targets
        = (some "capability registry not found", []))
    ∧ (∀ cr, home.capabilityRegistry = some cr → home.ccipHome = none →
        configureChain false (.ok nodes) home targets
          = (some "ccip home not found", []))
    ∧ (∀ cr ch, home.capabilityRegistry = some cr →
        home.ccipHome = some ch → home.rmnHome = none →
        configureChain false (.ok nodes) home targets
          = (some "rmn home not found", []))
    ∧ ∀ cr ch rh good sel bad rest,
        home.capabilityRegistry = some cr → home.ccipHome = some ch →
        home.rmnHome = some rh → targets = good ++ (sel, bad) :: rest →
        (∀ c ∈ good, goodTarget c = true) → goodTarget (sel, bad) = false →
        configureChain false (.ok nodes) home targets
          = (some (missingMsg sel bad), callsFor good) := by
  refine ⟨?_, ?_, ?_, ?_⟩
  · intro hcr
    rw [configureChain_ok_unfold nodes home targets hnodes, hcr]
  · intro cr hcr hch
    rw [configureChain_ok_unfold nodes home targets hnodes, hcr, hch]
  · intro cr ch hcr hch hrh
    rw [configureChain_ok_unfold nodes home targets hnodes, hcr, hch, hrh]
  · intro cr ch rh good sel bad rest hcr hch hrh htg hgood hbad
    rw [configureChain_ok_unfold nodes home targets hnodes, hcr, hch, hrh,
      htg, configureChainLoop_bad good sel bad rest [] hgood hbad]
    simp

/-- C7 witness: a concrete home chain missing its capability registry. -/
theorem configureChain_gating_witness :
    configureChain false (.ok [5])
        { capabilityRegistry := none, ccipHome := some 1, rmnHome := some 2 }
        [(7, some { offRamp := some 3 })]
      = (some "capability registry not found", []) := by
  have h := configureChain_gating [5]
    { capabilityRegistry := none, ccipHome := some 1, rmnHome := some 2 }
    [(7, some { offRamp := some 3 })] (by decide)
  exact h.1 rfl

/-- C5: in batched mode, a single `AppendNodeCapabilities` request for the
registry chain yields exactly one governance proposal with one transaction
whose ChangeBatch holds both operations — the AddCapabilities call and the
UpdateNodes call — co-located and in order; the Environment's operations
from the one request are never split across two batches. -/
theorem appendNodeCapabilities_single_batch (addr : Nat)
    (existing : List HashId) (hf : String → String → HashId)
    (submitRes : List Capability → Nat) (chain : Chain)
    (caps : List Capability) (nodes : List Nat) (hne : caps ≠ []) :
    AppendNodeCapabilities
        { capabilitiesRegistry :=
            Registry.ofTotal addr existing hf fun _ d => .ok (submitRes d) }
        chain caps nodes true
      = .ok { proposals := [{ transactions := [{
                chainIdentifier := chain.selector
                batch := [{ target := addr
                            data := .addCapabilities
                              (dedupSpecID hf existing caps)
                            value := 0 },
                          { target := addr
                            data := .updateNodes nodes
                            value := 0 }] }] }]
              addressBook := none } := by
  have h := addCapabilities_mcms_eq addr existing hf submitRes chain caps hne
  simp only [AppendNodeCapabilities, h]
  simp only [Registry.ofTotal]
  rfl

/-- C5 witness: a concrete batched request yields one proposal, one
transaction, and a two-operation batch. -/
theorem appendNodeCapabilities_single_batch_witness :
    AppendNodeCapabilities
        { capabilitiesRegistry :=
            Registry.ofTotal 5 [] pipeHash fun _ d => .ok d.length }
        chainW [capA10] [4] true
      = .ok { proposals := [{ transactions := [{
                chainIdentifier := 77
                batch := [{ target := 5
                            data := .addCapabilities [capA10]
                            value := 0 },
                          { target := 5
                            data := .updateNodes [4]
                            value := 0 }] }] }]
              addressBook := none } := by
  have h := appendNodeCapabilities_single_batch 5 [] pipeHash List.length
    chainW [capA10] [4] (by decide)
  exact h.trans (by
    rw [show dedupSpecID pipeHash [] [capA10] = [capA10] from by decide]
    rfl)
